import Mathlib

/-!
# Campus-guard mobile client: a shallow embedding

The development follows the JavaScript sources of the repository:

* `api.js`: the HTTP client module (request construction, the bearer-token
  interceptor, and the per-endpoint response handling);
* `screens/RecognizeFaceScreen.js`: the recognise-and-submit flow;
* `screens/LoginScreen.js`, `screens/HomeScreen.js`,
  `screens/DashboardScreen.js`: login, logout and the sidebar menus;
* `screens/RegisterFaceScreen.js`, `screens/StudentFacesScreen.js`: face
  registration and the student lists;
* `App.js`: the registered routes.

JavaScript values are embedded as `JsVal`; asynchronous calls are embedded by
passing the outcome of the awaited operation explicitly (`Net` gives the
outcome of every HTTP request); thrown exceptions are the `error` side of
`Except JsError`.  A number is given by its exact rational value; where the
code computes with numbers (the circle test, the confidence percentage) the
operations are those of IEEE 754 double precision (`Double`).
-/

namespace GuardApp

/-! ## JavaScript values -/

/-- JavaScript values as they cross the HTTP boundary and sit in component state.
Objects are association lists; the first binding of a key is the one read.
A `Date` object is its time value in milliseconds since the epoch. -/
inductive JsVal where
  | undefined : JsVal
  | null : JsVal
  | bool (b : Bool) : JsVal
  | num (q : ℚ) : JsVal
  | str (s : String) : JsVal
  | date (ms : Int) : JsVal
  | arr (xs : List JsVal) : JsVal
  | obj (fields : List (String × JsVal)) : JsVal

/-- Truthiness of a value, as tested by `if (v)`, `!v`, `a || b`. -/
def JsVal.truthy : JsVal → Bool
  | .undefined => false
  | .null => false
  | .bool b => b
  | .num q => decide (q ≠ 0)
  | .str s => decide (s ≠ "")
  | .date _ => true
  | .arr _ => true
  | .obj _ => true

/-- The operator `a || b`. -/
def JsVal.or (a b : JsVal) : JsVal :=
  if a.truthy then a else b

/-- Whether the value is an object carrying the key `k`. -/
def JsVal.hasField (v : JsVal) (k : String) : Bool :=
  match v with
  | .obj fields => (fields.lookup k).isSome
  | _ => false

/-- An HTTP response as axios exposes it on `error.response`. -/
structure HttpResponse where
  status : Nat
  data : JsVal

/-- A thrown JavaScript error: `message`, and for axios errors `code` and `response`. -/
structure JsError where
  message : String
  code : Option String
  response : Option HttpResponse

/-- The `TypeError` raised by reading a property of `undefined` or `null`. -/
def typeError (k : String) : JsError :=
  { message := "Cannot read properties of undefined or null (reading " ++ k ++ ")",
    code := none, response := none }

/-- An `Error` created by `new Error(message)`. -/
def newError (message : String) : JsError :=
  { message := message, code := none, response := none }

/-- Property read `v.k`: throws on `undefined` and `null`. -/
def JsVal.getProp (v : JsVal) (k : String) : Except JsError JsVal :=
  match v with
  | .undefined => .error (typeError k)
  | .null => .error (typeError k)
  | .obj fields => .ok ((fields.lookup k).getD .undefined)
  | _ => .ok .undefined

/-- Optional chaining `v?.k`. -/
def JsVal.optProp (v : JsVal) (k : String) : JsVal :=
  match v with
  | .obj fields => (fields.lookup k).getD .undefined
  | _ => .undefined

/-- The expression `error.response?.data`. -/
def JsError.responseData (e : JsError) : JsVal :=
  match e.response with
  | some r => r.data
  | none => .undefined

/-- The expression `error.response?.status === 409`. -/
def JsError.isConflict (e : JsError) : Bool :=
  match e.response with
  | some r => decide (r.status = 409)
  | none => false

/-! ## Local storage (AsyncStorage) -/

/-- The key-value store behind `AsyncStorage`; every operation succeeds. -/
abbrev Storage := String → Option String

/-- Model of `AsyncStorage.setItem(key, value)`. -/
def Storage.setItem (st : Storage) (key value : String) : Storage :=
  fun k => if k = key then some value else st k

/-- Model of `AsyncStorage.removeItem(key)`. -/
def Storage.removeItem (st : Storage) (key : String) : Storage :=
  fun k => if k = key then none else st k

/-- Model of `AsyncStorage.getItem(key)`. -/
def Storage.getItem (st : Storage) (key : String) : Option String :=
  st key

/-! ## api.js: requests -/

/-- The constant `BASE_URL` of api.js. -/
def BASE_URL : String := "http://192.168.208.46:8000/api"

/-- The constant `FLASK_URL` of api.js. -/
def FLASK_URL : String := "http://192.168.208.46:5000"

/-- An axios request configuration, as it leaves the application. -/
structure RequestConfig where
  method : String
  url : String
  headers : List (String × String)
  timeout : Nat
  data : JsVal

/-- Assignment `headers[name] = value`. -/
def setHeader (headers : List (String × String)) (name value : String) :
    List (String × String) :=
  (name, value) :: headers.filter (fun h => h.1 ≠ name)

/-- The request interceptor installed on `client`: attach the stored token if there is one. -/
def requestInterceptor (st : Storage) (config : RequestConfig) : RequestConfig :=
  match st.getItem "authToken" with
  | some token =>
    if token ≠ "" then
      { config with headers := setHeader config.headers "Authorization" ("Bearer " ++ token) }
    else config
  | none => config

/-- A request made through `client` (axios instance with `baseURL: BASE_URL`,
`timeout: 20000`, JSON content type, and the request interceptor). -/
def clientRequest (st : Storage) (method path : String) (data : JsVal) : RequestConfig :=
  requestInterceptor st
    { method := method, url := BASE_URL ++ path,
      headers := [("Content-Type", "application/json")], timeout := 20000, data := data }

/-- A request made through `flaskClient` (no interceptor). -/
def flaskRequest (method path : String) (data : JsVal) : RequestConfig :=
  { method := method, url := FLASK_URL ++ path,
    headers := [("Content-Type", "application/json")], timeout := 20000, data := data }

/-- The outcome of one HTTP request: the response body of a 2xx answer, or the
axios error (which carries the response for a non-2xx answer, and none for a
transport failure). -/
abbrev HttpOutcome := Except JsError JsVal

/-- The network: the outcome of every request the application may send. -/
abbrev Net := RequestConfig → HttpOutcome

/-- The result of running one api.js function: what it returns or throws, and
the requests it sent, in order. -/
structure ApiRun where
  result : Except JsError JsVal
  sent : List RequestConfig

/-- The request of `login(email, password)`. -/
def loginRequest (st : Storage) (email password : String) : RequestConfig :=
  clientRequest st "POST" "/login"
    (.obj [("email", .str email), ("password", .str password),
           ("device_name", .str "react-native-app")])

/-- The request of `fetchStudents()`. -/
def fetchStudentsRequest (st : Storage) : RequestConfig :=
  clientRequest st "GET" "/students" .undefined

/-- The request of `encodeFace(imageBase64)`, sent to the encoder service. -/
def encodeFaceRequest (imageBase64 : JsVal) : RequestConfig :=
  flaskRequest "POST" "/encode-face" (.obj [("image_base64", imageBase64)])

/-- The request of `registerFace(payload)`. -/
def registerFaceRequest (st : Storage) (payload : JsVal) : RequestConfig :=
  clientRequest st "POST" "/register-face" payload

/-- The request of `recognizeFace(faceEncoding, threshold)`. -/
def recognizeFaceRequest (st : Storage) (faceEncoding threshold : JsVal) : RequestConfig :=
  clientRequest st "POST" "/recognize-face"
    (.obj [("face_encoding", faceEncoding), ("threshold", threshold)])

/-- The request of `submitViolation(violation)`. -/
def submitViolationRequest (st : Storage) (violation : JsVal) : RequestConfig :=
  clientRequest st "POST" "/violations" violation

/-- The request of `checkDuplicateViolation(violationData)`: a direct `axios.post`
on the full URL with its own timeout and headers. -/
def checkDuplicateViolationRequest (violationData : JsVal) : RequestConfig :=
  { method := "POST", url := BASE_URL ++ "/check-duplicate-violation",
    headers := [("Content-Type", "application/json")], timeout := 10000,
    data := violationData }

/-- The request of `fetchViolations()`. -/
def fetchViolationsRequest (st : Storage) : RequestConfig :=
  clientRequest st "GET" "/violations" .undefined

/-- The request of `fetchViolationStats()`. -/
def fetchViolationStatsRequest (st : Storage) : RequestConfig :=
  clientRequest st "GET" "/violations/statistics" .undefined

/-- The request of `logout()`. -/
def logoutRequest (st : Storage) : RequestConfig :=
  clientRequest st "POST" "/logout" .undefined

/-- The request of `fetchStudentsWithFaceStatus()`. -/
def fetchStudentsWithFaceStatusRequest (st : Storage) : RequestConfig :=
  clientRequest st "GET" "/students/face-registration-status" .undefined

/-- The value of the `Authorization` header of a request, if it has one. -/
def RequestConfig.authorization (r : RequestConfig) : Option String :=
  r.headers.lookup "Authorization"

/-! ## api.js: the exported functions -/

/-- Source `login`: the body on success, otherwise an error object. -/
def login (st : Storage) (net : Net) (email password : String) : ApiRun :=
  let req := loginRequest st email password
  { sent := [req],
    result :=
      match net req with
      | .ok data => .ok data
      | .error e =>
        .ok (.obj [("error", .bool true),
                   ("message", (e.responseData.optProp "message").or
                      ((e.responseData.optProp "error").or (.str "Login failed")))]) }

/-- The shared body of `fetchStudents` and `fetchStudentsWithFaceStatus`:
`data.students || []` inside a try whose catch returns `[]`. -/
def studentsOrEmpty (out : HttpOutcome) : Except JsError JsVal :=
  match out.bind (fun data => data.getProp "students") with
  | .ok students => .ok (students.or (.arr []))
  | .error _ => .ok (.arr [])

/-- Source `fetchStudents`. -/
def fetchStudents (st : Storage) (net : Net) : ApiRun :=
  let req := fetchStudentsRequest st
  { sent := [req], result := studentsOrEmpty (net req) }

/-- Source `fetchStudentsWithFaceStatus`. -/
def fetchStudentsWithFaceStatus (st : Storage) (net : Net) : ApiRun :=
  let req := fetchStudentsWithFaceStatusRequest st
  { sent := [req], result := studentsOrEmpty (net req) }

/-- Source `submitViolation`: a 409 answer is returned like a body, every other
failure is rethrown. -/
def submitViolation (st : Storage) (net : Net) (violation : JsVal) : ApiRun :=
  let req := submitViolationRequest st violation
  { sent := [req],
    result :=
      match net req with
      | .ok data => .ok data
      | .error e => if e.isConflict then .ok e.responseData else .error e }

/-- Source `checkDuplicateViolation`: the boolean `is_duplicate` of the body,
and `false` for everything else. -/
def checkDuplicateViolation (net : Net) (violationData : JsVal) : ApiRun :=
  let req := checkDuplicateViolationRequest violationData
  { sent := [req],
    result :=
      match (net req).bind (fun data => data.getProp "is_duplicate") with
      | .ok (.bool b) => .ok (.bool b)
      | .ok _ => .ok (.bool false)
      | .error _ => .ok (.bool false) }

/-- The fallback value of `fetchViolations`. -/
def emptyViolations : JsVal :=
  .obj [("success", .bool false), ("violations", .obj [("data", .arr [])])]

/-- Source `fetchViolations`. -/
def fetchViolations (st : Storage) (net : Net) : ApiRun :=
  let req := fetchViolationsRequest st
  { sent := [req],
    result :=
      match net req with
      | .ok data => .ok data
      | .error _ => .ok emptyViolations }

/-- Source `fetchViolationStats`: no try/catch, a failure propagates. -/
def fetchViolationStats (st : Storage) (net : Net) : ApiRun :=
  let req := fetchViolationStatsRequest st
  { sent := [req], result := net req }

/-- Source `logout`. -/
def logout (st : Storage) (net : Net) : ApiRun :=
  let req := logoutRequest st
  { sent := [req],
    result :=
      match net req with
      | .ok data => .ok data
      | .error e =>
        .ok (.obj [("error", .bool true),
                   ("message", (e.responseData.optProp "message").or (.str "Logout failed"))]) }

/-! ## Dates -/

/-- Decimal rendering of `n` left-padded with zeros to `width` digits. -/
def padZero (width n : Nat) : String :=
  let digits := toString n
  String.mk (List.replicate (width - digits.length) '0') ++ digits

/-- The calendar date (year, month, day) of a day number counted from 1970-01-01,
in the proleptic Gregorian calendar. -/
def civilFromDays (days : Int) : Int × Int × Int :=
  let z := days + 719468
  let era := z / 146097
  let doe := z - era * 146097
  let yoe := (doe - doe / 1460 + doe / 36524 - doe / 146096) / 365
  let doy := doe - (365 * yoe + yoe / 4 - yoe / 100)
  let mp := (5 * doy + 2) / 153
  let d := doy - (153 * mp + 2) / 5 + 1
  let m := if mp < 10 then mp + 3 else mp - 9
  let y := yoe + era * 400 + (if m ≤ 2 then 1 else 0)
  (y, m, d)

/-- The expression `date.toISOString().split(T)[0]` for a date with time value
`ms`: the UTC calendar date as `YYYY-MM-DD` (years 0000 to 9999). -/
def isoDate (ms : Int) : String :=
  let ymd := civilFromDays (ms / 86400000)
  padZero 4 ymd.1.toNat ++ "-" ++ padZero 2 ymd.2.1.toNat ++ "-" ++ padZero 2 ymd.2.2.toNat

/-! ## screens/RecognizeFaceScreen.js: state -/

/-- A student record as returned by the recogniser. -/
structure Student where
  id : JsVal
  first_name : String
  last_name : String

/-- The violation form (`violation` state). -/
structure Violation where
  student_id : JsVal
  violation_type : String
  description : String
  violation_date : Int
  severity : String
  location : String
  evidence : String
  notes : String
  reported_by : JsVal

/-- The object spread `...violation`. -/
def Violation.fields (v : Violation) : List (String × JsVal) :=
  [("student_id", v.student_id), ("violation_type", .str v.violation_type),
   ("description", .str v.description), ("violation_date", .date v.violation_date),
   ("severity", .str v.severity), ("location", .str v.location),
   ("evidence", .str v.evidence), ("notes", .str v.notes),
   ("reported_by", v.reported_by)]

/-- The value of `faceData`. -/
structure FaceData where
  landmarks : JsVal
  confidence : JsVal
  bbox : Option (ℚ × ℚ × ℚ × ℚ)
  insideCircle : Option Bool

/-- The value of `liveRecognition` when it is not null. -/
structure LiveRecognition where
  confidence : ℚ
  student : Student

/-- The value of `submittedViolation` when it is not null:
the form spread, plus `id` and `student_name`. -/
structure SubmittedViolation where
  violation : Violation
  id : JsVal
  student_name : String

/-- The component state of `RecognizeAndSubmitViolation`. -/
structure ScreenState where
  capturedPhoto : Option String
  faceData : FaceData
  recognizedStudent : Option Student
  liveRecognition : Option LiveRecognition
  isProcessing : Bool
  step : String
  detectionStatus : String
  confidenceLevel : ℚ
  violation : Violation
  showDatePicker : Bool
  isSubmitting : Bool
  submittedViolation : Option SubmittedViolation

/-- The form as `useState` initialises it; `now` is `new Date()` at mount. -/
def initialViolation (now : Int) : Violation :=
  { student_id := .str "", violation_type := "late_arrival", description := "",
    violation_date := now, severity := "minor", location := "", evidence := "",
    notes := "", reported_by := .num 1 }

/-- The component state at mount. -/
def initialState (now : Int) : ScreenState :=
  { capturedPhoto := none,
    faceData := { landmarks := .null, confidence := .num 0, bbox := none, insideCircle := none },
    recognizedStudent := none, liveRecognition := none, isProcessing := false,
    step := "recognize", detectionStatus := "no_face", confidenceLevel := 0,
    violation := initialViolation now, showDatePicker := false, isSubmitting := false,
    submittedViolation := none }

/-- What a handler does besides updating component state. -/
inductive Effect where
  | request (r : RequestConfig) : Effect
  | alert (title : String) (message : JsVal) : Effect
  | navigate (route : String) : Effect
  | closeSidebar : Effect
  | storageSet (key value : String) : Effect
  | storageRemove (key : String) : Effect
  | takePicture : Effect
  | encodeFaceCall (imageBase64 : String) : Effect
  | recognizeFaceCall (faceEncoding : List ℚ) : Effect

/-- Whether an effect is a call into the network layer. -/
def Effect.isNetwork : Effect → Bool
  | .request _ => true
  | .encodeFaceCall _ => true
  | .recognizeFaceCall _ => true
  | _ => false

/-- Whether an effect is an alert with the given title. -/
def Effect.isAlert (title : String) : Effect → Bool
  | .alert t _ => decide (t = title)
  | _ => false

/-! ## IEEE 754 double precision -/

/-- The number of binary digits of `n`, computed with at most `fuel` halvings. -/
def bitLengthAux : Nat → Nat → Nat
  | 0, _ => 0
  | fuel + 1, n => if n = 0 then 0 else bitLengthAux fuel (n / 2) + 1

/-- The number of binary digits of `n` (for `n` below `2 ^ 4096`, which covers
every intermediate value of double arithmetic). -/
def bitLength (n : Nat) : Nat :=
  bitLengthAux 4096 n

/-- Newton iteration for the integer square root, started above the root. -/
def isqrtAux : Nat → Nat → Nat → Nat
  | 0, _, x => x
  | fuel + 1, n, x =>
    let y := (x + n / x) / 2
    if y < x then isqrtAux fuel n y else x

/-- The integer square root: the largest `r` with `r * r ≤ n`. -/
def isqrt (n : Nat) : Nat :=
  if n = 0 then 0 else isqrtAux 128 n (2 ^ ((bitLength n + 1) / 2))

/-- A JavaScript number, that is an IEEE 754 binary64 value: NaN, an infinity,
or the finite value `m * 2 ^ e` with `m` odd (zero is `fin 0 0`; the sign of
zero is not represented). -/
inductive Double where
  | nan : Double
  | inf (negative : Bool) : Double
  | fin (m : Int) (e : Int) : Double
  deriving DecidableEq

namespace Double

/-- The canonical form of `m * 2 ^ e`: trailing zero bits moved into the exponent. -/
def normalize (m e : Int) : Double :=
  if m = 0 then .fin 0 0
  else
    let a := m.natAbs
    let low := a ^^^ (a &&& (a - 1))
    let k := bitLength low - 1
    .fin (m / ((2 ^ k : Nat) : Int)) (e + (k : Int))

/-- The integer `⌊log₂ (n / d)⌋` for positive `n` and `d`. -/
def floorLog2Ratio (n d : Nat) : Int :=
  let e0 : Int := ((bitLength n : Int) - 1) - ((bitLength d : Int) - 1)
  if 0 ≤ e0 then (if d * 2 ^ e0.toNat ≤ n then e0 else e0 - 1)
  else (if d ≤ n * 2 ^ (-e0).toNat then e0 else e0 - 1)

/-- The double nearest to `± n / d` (`d` positive), ties to the even mantissa,
with gradual underflow and overflow to infinity. -/
def roundRatio (negative : Bool) (n d : Nat) : Double :=
  if n = 0 then .fin 0 0
  else
    let e := max (floorLog2Ratio n d) (-1022)
    let u := e - 52
    let num := if u ≤ 0 then n * 2 ^ (-u).toNat else n
    let den := if u ≤ 0 then d else d * 2 ^ u.toNat
    let q := num / den
    let r := num % den
    let m := if den < 2 * r ∨ (2 * r = den ∧ q % 2 = 1) then q + 1 else q
    if 971 < u ∨ (u = 971 ∧ m = 2 ^ 53) then .inf negative
    else normalize (if negative then -(m : Int) else (m : Int)) u

/-- The double nearest to the dyadic number `m * 2 ^ e`. -/
def roundDyadic (m e : Int) : Double :=
  if 0 ≤ e then roundRatio (decide (m < 0)) (m.natAbs * 2 ^ e.toNat) 1
  else roundRatio (decide (m < 0)) m.natAbs (2 ^ (-e).toNat)

/-- The double nearest to a rational number (the identity on doubles). -/
def ofRat (q : ℚ) : Double :=
  roundRatio (decide (q.num < 0)) q.num.natAbs q.den

/-- The double denoted by a natural-number literal. -/
def ofNat (n : Nat) : Double :=
  roundRatio false n 1

/-- The double denoted by the decimal literal `digits / 10 ^ places`. -/
def ofDecimal (digits places : Nat) : Double :=
  roundRatio false digits (10 ^ places)

/-- The exact value of a finite double. -/
def toRat : Double → Option ℚ
  | .fin m e => some ((m : ℚ) * (2 : ℚ) ^ e)
  | _ => none

/-- The operator `-a`. -/
def neg : Double → Double
  | .nan => .nan
  | .inf negative => .inf (!negative)
  | .fin m e => .fin (-m) e

/-- The operator `a + b`. -/
def add : Double → Double → Double
  | .nan, _ => .nan
  | _, .nan => .nan
  | .inf s, .inf t => if s = t then .inf s else .nan
  | .inf s, .fin _ _ => .inf s
  | .fin _ _, .inf t => .inf t
  | .fin m1 e1, .fin m2 e2 =>
    let e := min e1 e2
    roundDyadic (m1 * 2 ^ (e1 - e).toNat + m2 * 2 ^ (e2 - e).toNat) e

/-- The operator `a - b`. -/
def sub (a b : Double) : Double :=
  a.add b.neg

/-- The operator `a * b`. -/
def mul : Double → Double → Double
  | .nan, _ => .nan
  | _, .nan => .nan
  | .inf s, .inf t => .inf (s != t)
  | .inf s, .fin m _ => if m = 0 then .nan else .inf (s != decide (m < 0))
  | .fin m _, .inf t => if m = 0 then .nan else .inf (decide (m < 0) != t)
  | .fin m1 e1, .fin m2 e2 => roundDyadic (m1 * m2) (e1 + e2)

/-- The operator `a / b` (a zero divisor counts as positive zero). -/
def div : Double → Double → Double
  | .nan, _ => .nan
  | _, .nan => .nan
  | .inf _, .inf _ => .nan
  | .inf s, .fin m _ => .inf (s != decide (m < 0))
  | .fin _ _, .inf _ => .fin 0 0
  | .fin m1 e1, .fin m2 e2 =>
    if m2 = 0 then (if m1 = 0 then .nan else .inf (decide (m1 < 0)))
    else
      roundRatio (decide (m1 < 0) != decide (m2 < 0))
        (m1.natAbs * 2 ^ (e1 - e2).toNat) (m2.natAbs * 2 ^ (e2 - e1).toNat)

/-- The function `Math.sqrt`, correctly rounded. -/
def sqrt : Double → Double
  | .nan => .nan
  | .inf negative => if negative then .nan else .inf false
  | .fin m e =>
    if m < 0 then .nan
    else if m = 0 then .fin 0 0
    else
      let s0 : Int := 110 - (bitLength m.natAbs : Int)
      let s : Int := if (e - s0) % 2 = 0 then s0 else s0 + 1
      let big := m.natAbs * 2 ^ s.toNat
      let k := (e - s) / 2
      let r := isqrt big
      let sticky := if r * r = big then 0 else 1
      roundDyadic ((2 * r + sticky : Nat) : Int) (k - 1)

/-- The comparison `a <= b`. -/
def le : Double → Double → Bool
  | .nan, _ => false
  | _, .nan => false
  | .inf s, .inf t => s || !t
  | .inf s, .fin _ _ => s
  | .fin _ _, .inf t => !t
  | .fin m1 e1, .fin m2 e2 =>
    let e := min e1 e2
    decide (m1 * 2 ^ (e1 - e).toNat ≤ m2 * 2 ^ (e2 - e).toNat)

end Double

/-! ## screens/RecognizeFaceScreen.js: the live-recognition loop -/

/-- What `takePictureAsync` resolves to. -/
structure Photo where
  base64 : Option String
  width : ℚ
  height : ℚ

/-- The encoder answer as `encodeFace` returns it: the documented fields, each
absent when the encoder reports an error; `bbox` is `[x1, y1, x2, y2]`. -/
structure EncResponse where
  encoding : Option (List ℚ)
  bbox : Option (ℚ × ℚ × ℚ × ℚ)
  landmarks : JsVal
  confidence : JsVal

/-- The recogniser answer as `recognizeFace` returns it (`recognized` is false
for an error object). -/
structure Recognition where
  recognized : Bool
  confidence : ℚ
  student : Student

/-- The value `insideCircle` computed by the interval callback; every
operation is the double-precision one, on the doubles that the numbers of the
photo and of the bbox are. -/
def insideCircle (photo : Photo) (bbox : ℚ × ℚ × ℚ × ℚ) : Bool :=
  let x1 := Double.ofRat bbox.1
  let y1 := Double.ofRat bbox.2.1
  let x2 := Double.ofRat bbox.2.2.1
  let y2 := Double.ofRat bbox.2.2.2
  let faceCenterX := (x1.add x2).div (Double.ofNat 2)
  let faceCenterY := (y1.add y2).div (Double.ofNat 2)
  let circleTop := (Double.ofRat photo.height).mul (Double.ofDecimal 25 2)
  let circleLeft := (Double.ofRat photo.width).mul (Double.ofDecimal 15 2)
  let circleDiameter := (Double.ofRat photo.width).mul (Double.ofDecimal 70 2)
  let circleRadius := circleDiameter.div (Double.ofNat 2)
  let circleCenterX := circleLeft.add circleRadius
  let circleCenterY := circleTop.add circleRadius
  let dx := faceCenterX.sub circleCenterX
  let dy := faceCenterY.sub circleCenterY
  let distance := ((dx.mul dx).add (dy.mul dy)).sqrt
  distance.le circleRadius

/-- The part of the interval callback that consumes the answer of
`recognizeFace` (the `if (recognition?.recognized)` statement). -/
def applyRecognition (s : ScreenState) (recognition : Option Recognition) : ScreenState :=
  match recognition with
  | some r =>
    if r.recognized then
      let s1 := { s with
        liveRecognition := some { confidence := r.confidence, student := r.student },
        detectionStatus := "recognized",
        confidenceLevel := r.confidence }
      if r.confidence ≥ 0.5 ∧ r.confidence < 0.8 then
        { s1 with
          recognizedStudent := some r.student,
          violation := { s1.violation with student_id := r.student.id },
          step := "submit" }
      else s1
    else { s with liveRecognition := none, detectionStatus := "no_face" }
  | none => { s with liveRecognition := none, detectionStatus := "no_face" }

/-- The condition under which the effect installs the 3-second interval. -/
def intervalActive (s : ScreenState) (permissionGranted : Bool) : Bool :=
  s.capturedPhoto.isNone && permissionGranted && !s.isProcessing && decide (s.step = "recognize")

/-- One run of the interval callback.  `cameraReady` is `cameraRef.current`,
`photo` the outcome of `takePictureAsync`, `enc` what `encodeFace` returns and
`recognition` what `recognizeFace` returns, each used only if the call is made. -/
def liveTick (s : ScreenState) (cameraReady : Bool) (photo : Except JsError (Option Photo))
    (enc : Option EncResponse) (recognition : Option Recognition) :
    ScreenState × List Effect :=
  if cameraReady && !s.isProcessing then
    let s1 := { s with isProcessing := true, detectionStatus := "detecting" }
    match photo with
    | .error _ =>
      ({ s1 with detectionStatus := "no_face", isProcessing := false }, [.takePicture])
    | .ok none => ({ s1 with isProcessing := false }, [.takePicture])
    | .ok (some p) =>
      match p.base64 with
      | none => ({ s1 with isProcessing := false }, [.takePicture])
      | some b64 =>
        if b64 = "" then ({ s1 with isProcessing := false }, [.takePicture])
        else
          match enc.bind (fun r => r.encoding), enc.bind (fun r => r.bbox) with
          | some encoding, some bbox =>
            let inside := insideCircle p bbox
            let s2 := { s1 with faceData :=
              { landmarks := (enc.map (fun r => r.landmarks)).getD .undefined,
                confidence := (enc.map (fun r => r.confidence)).getD .undefined,
                bbox := some bbox, insideCircle := some inside } }
            if inside then
              ({ applyRecognition s2 recognition with isProcessing := false },
                [.takePicture, .encodeFaceCall b64, .recognizeFaceCall encoding])
            else
              ({ s2 with detectionStatus := "no_face", isProcessing := false },
                [.takePicture, .encodeFaceCall b64])
          | _, _ => ({ s1 with isProcessing := false }, [.takePicture, .encodeFaceCall b64])
  else ({ s with isProcessing := false }, [])

/-! ## screens/RecognizeFaceScreen.js: submitting the form -/

/-- The template `first_name last_name` built from `recognizedStudent?.…`. -/
def studentName (recognizedStudent : Option Student) : String :=
  match recognizedStudent with
  | some st => st.first_name ++ " " ++ st.last_name
  | none => "undefined undefined"

/-- The catch block of `submitViolationData`. -/
def submitCatch (e : JsError) : Effect :=
  if e.isConflict then
    .alert "Duplicate Violation"
      (.str "Duplicate violation found for this student on the same day.")
  else .alert "Error" ((JsVal.str e.message).or (.str "An unexpected error occurred"))

/-- Source `submitViolationData`; `tz` is `getTimezoneOffset()` in minutes. -/
def submitViolationData (s : ScreenState) (st : Storage) (net : Net) (tz : Int) :
    ScreenState × List Effect :=
  let formattedDate := isoDate (s.violation.violation_date - tz * 60000)
  let run := submitViolation st net
    (.obj (s.violation.fields ++ [("date", .str formattedDate)]))
  let sent := run.sent.map Effect.request
  match run.result with
  | .error e => ({ s with isSubmitting := false }, sent ++ [submitCatch e])
  | .ok response =>
    match response.getProp "success" with
    | .error e => ({ s with isSubmitting := false }, sent ++ [submitCatch e])
    | .ok success =>
      if success.truthy then
        ({ s with
            submittedViolation := some
              { violation := s.violation, id := response.optProp "violation_id",
                student_name := studentName s.recognizedStudent },
            step := "submitted", isSubmitting := false }, sent)
      else if (response.optProp "is_duplicate").truthy then
        ({ s with isSubmitting := false },
          sent ++ [.alert "Duplicate Violation"
            (.str "This violation already exists in the system. You cannot submit it again.")])
      else
        ({ s with isSubmitting := false },
          sent ++ [.alert "Error"
            ((response.optProp "message").or (.str "Failed to submit violation"))])

/-- Source `handleSubmit`; `proceed` is the user's answer to the duplicate dialog. -/
def handleSubmit (s : ScreenState) (st : Storage) (net : Net) (tz : Int) (proceed : Bool) :
    ScreenState × List Effect :=
  if !s.violation.student_id.truthy then
    (s, [.alert "Error" (.str "No student selected")])
  else if s.violation.description = "" then
    (s, [.alert "Error" (.str "Please enter a description")])
  else
    let formattedDate := isoDate s.violation.violation_date
    let run := checkDuplicateViolation net
      (.obj [("student_id", s.violation.student_id),
             ("violation_type", .str s.violation.violation_type),
             ("date", .str formattedDate)])
    let sent := run.sent.map Effect.request
    let submit := submitViolationData s st net tz
    match run.result with
    | .error _ => (submit.1, sent ++ submit.2)
    | .ok isDuplicate =>
      if isDuplicate.truthy then
        let dialog := Effect.alert "Duplicate Violation"
          (.str ("This student already has a similar violation recorded today. " ++
            "Do you want to proceed anyway?"))
        if proceed then (submit.1, sent ++ [dialog] ++ submit.2)
        else (s, sent ++ [dialog])
      else (submit.1, sent ++ submit.2)

/-! ## Login and logout -/

/-- The run of a handler that works on local storage: the storage it leaves,
its effects in order, and the error it died with, if any. -/
structure HandlerRun where
  storage : Storage
  effects : List Effect
  thrown : Option JsError

/-- Model of `await AsyncStorage.setItem(key, value)` for a JavaScript value:
strings are stored; the store rejects anything else. -/
def storeItem (run : HandlerRun) (key : String) (value : JsVal) : HandlerRun :=
  match value with
  | .str v =>
    { run with storage := run.storage.setItem key v,
               effects := run.effects ++ [.storageSet key v] }
  | _ => { run with thrown := some (newError "AsyncStorage: value is not a string") }

/-- Sequencing: the next statement runs only if nothing was thrown. -/
def HandlerRun.andThen (run : HandlerRun) (next : HandlerRun → HandlerRun) : HandlerRun :=
  match run.thrown with
  | some _ => run
  | none => next run

/-- Model of `await AsyncStorage.removeItem(key)`. -/
def dropItem (run : HandlerRun) (key : String) : HandlerRun :=
  { run with storage := run.storage.removeItem key,
             effects := run.effects ++ [.storageRemove key] }

/-- Source `handleLogin` of LoginScreen.js.  `stringify` is `JSON.stringify`
(undefined for an undefined argument), `toStr` the string conversion used by
template literals. -/
def handleLogin (email password : String) (rememberMe : Bool)
    (stringify : JsVal → Option String) (toStr : JsVal → String)
    (st : Storage) (net : Net) : HandlerRun :=
  if email = "" ∨ password = "" then
    { storage := st, thrown := none,
      effects := [.alert "Error" (.str "Please enter both email and password")] }
  else
    let call := login st net email password
    let run0 : HandlerRun :=
      { storage := st, effects := call.sent.map Effect.request, thrown := none }
    match call.result.bind (fun result => (result.getProp "error").map (fun e => (result, e))) with
    | .error e => { run0 with thrown := some e }
    | .ok (result, err) =>
      if err.truthy then
        { run0 with effects := run0.effects ++ [.alert "Login Failed" (result.optProp "message")] }
      else
        let stored :=
          if (result.optProp "token").truthy then
            ((storeItem run0 "authToken" (result.optProp "token")).andThen (fun r =>
              storeItem r "userData"
                (match stringify (result.optProp "user") with
                 | some text => .str text
                 | none => .undefined))).andThen (fun r =>
              if rememberMe then
                (storeItem r "savedEmail" (.str email)).andThen (fun r1 =>
                  storeItem r1 "savedPassword" (.str password))
              else dropItem (dropItem r "savedEmail") "savedPassword")
          else run0
        stored.andThen (fun r =>
          match (result.optProp "user").getProp "name" with
          | .error e => { r with thrown := some e }
          | .ok name =>
            { r with effects := r.effects ++
                [.alert "Login Success" (.str ("Welcome " ++ toStr name)),
                 .navigate "Home"] })

/-- The body of `handleLogout` in the Home sidebar, for a given outcome of
the awaited `logout()` call. -/
def handleLogoutWith (st : Storage) (outcome : Except JsError JsVal) : HandlerRun :=
  let start : HandlerRun := { storage := st, effects := [], thrown := none }
  let finish (r : HandlerRun) : HandlerRun :=
    let r1 := dropItem r "authToken"
    { r1 with effects := r1.effects ++ [.navigate "Login"] }
  match outcome.bind (fun result => result.getProp "error") with
  | .ok _ => finish start
  | .error _ => finish start

/-- Source `handleLogout` of HomeScreen.js. -/
def handleLogout (st : Storage) (net : Net) : HandlerRun :=
  let call := logout st net
  let run := handleLogoutWith st call.result
  { run with effects := call.sent.map Effect.request ++ run.effects }

/-- The action of the Logout item of the Dashboard sidebar. -/
def dashboardLogoutAction (st : Storage) : HandlerRun :=
  { storage := st, effects := [.closeSidebar, .navigate "Login"], thrown := none }

/-! ## api.js: the remaining error-object functions -/

/-- Source `encodeFace`: the body on success, otherwise an error object whose
message is the first truthy of the server `error`, the transport message and
the fixed text. -/
def encodeFace (net : Net) (imageBase64 : JsVal) : ApiRun :=
  let req := encodeFaceRequest imageBase64
  { sent := [req],
    result :=
      match net req with
      | .ok data => .ok data
      | .error e =>
        .ok (.obj [("error", .bool true),
                   ("message", (e.responseData.optProp "error").or
                      ((JsVal.str e.message).or (.str "Encoder call failed")))]) }

/-- Source `registerFace`. -/
def registerFace (st : Storage) (net : Net) (payload : JsVal) : ApiRun :=
  let req := registerFaceRequest st payload
  { sent := [req],
    result :=
      match net req with
      | .ok data => .ok data
      | .error e =>
        .ok (.obj [("error", .bool true),
                   ("message", (e.responseData.optProp "error").or
                      ((e.responseData.optProp "message").or
                        ((JsVal.str e.message).or (.str "Face registration failed"))))]) }

/-- The default value of the `threshold` parameter of `recognizeFace`. -/
def defaultThreshold : JsVal := .num 0.6

/-- Source `recognizeFace`; a call without threshold passes `defaultThreshold`. -/
def recognizeFace (st : Storage) (net : Net) (faceEncoding threshold : JsVal) : ApiRun :=
  let req := recognizeFaceRequest st faceEncoding threshold
  { sent := [req],
    result :=
      match net req with
      | .ok data => .ok data
      | .error e =>
        .ok (.obj [("error", .bool true),
                   ("message", (e.responseData.optProp "error").or
                      ((e.responseData.optProp "message").or
                        ((JsVal.str e.message).or (.str "Face recognition failed"))))]) }

/-! ## screens/RecognizeFaceScreen.js: the form -/

/-- An entry of the `violationTypes` table. -/
structure ViolationType where
  label : String
  value : String
  description : String
  severity : String

/-- The table `violationTypes`. -/
def violationTypes : List ViolationType :=
  [ { label := "Late Arrival", value := "late_arrival",
      description := "Student arrived late to class or school activity",
      severity := "minor" },
    { label := "Uniform Violation", value := "uniform_violation",
      description := "Student not wearing proper uniform or violating dress code",
      severity := "minor" },
    { label := "Misconduct", value := "misconduct",
      description := "Student engaged in disruptive or inappropriate behavior",
      severity := "major" },
    { label := "Academic Dishonesty", value := "academic_dishonesty",
      description := "Student involved in cheating, plagiarism, or other dishonest practices",
      severity := "severe" },
    { label := "Other", value := "other",
      description := "Other violation not covered by standard categories",
      severity := "minor" } ]

/-- The effect on `violation.violation_type`: copy the fixed description and
severity of the selected type, if the table has it. -/
def typeChangeEffect (v : Violation) : Violation :=
  match violationTypes.find? (fun type => decide (type.value = v.violation_type)) with
  | some selectedType =>
    { v with description := selectedType.description, severity := selectedType.severity }
  | none => v

/-- The `onValueChange` of the type picker, followed by the effect, which runs
only when `violation_type` has changed. -/
def pickViolationType (s : ScreenState) (itemValue : String) : ScreenState :=
  if itemValue = s.violation.violation_type then s
  else { s with violation := typeChangeEffect { s.violation with violation_type := itemValue } }

/-- Source `handleNewViolation`; `now` is `new Date()` at the call. -/
def handleNewViolation (s : ScreenState) (now : Int) : ScreenState :=
  { s with
    step := "recognize",
    recognizedStudent := none,
    confidenceLevel := 0,
    submittedViolation := none,
    violation :=
      { student_id := .str "", violation_type := "tardiness", description := "",
        violation_date := now, severity := "minor", location := "", evidence := "",
        notes := "", reported_by := .num 1 } }

/-- The `date` fields of the request bodies among the effects, in order. -/
def requestDates (effects : List Effect) : List JsVal :=
  effects.filterMap (fun e =>
    match e with
    | .request r => some (r.data.optProp "date")
    | _ => none)

/-! ## Helpers shared by the registration and student-list screens -/

/-- The test `v === undefined`. -/
def JsVal.isUndefined : JsVal → Bool
  | .undefined => true
  | _ => false

/-- The test `v === false`. -/
def JsVal.isFalse : JsVal → Bool
  | .bool b => !b
  | _ => false

/-- The expression `v ?? null`. -/
def JsVal.orNull : JsVal → JsVal
  | .undefined => .null
  | v => v

/-- Numeric conversion of a value as done by the arithmetic operators; `none`
is NaN.  `parse` is the conversion of a string to a number and `toStr` the
string conversion used for arrays and objects. -/
def JsVal.toNumber (toStr : JsVal → String) (parse : String → Option ℚ) : JsVal → Option ℚ
  | .undefined => none
  | .null => some 0
  | .bool b => some (if b then 1 else 0)
  | .num q => some q
  | .str t => parse t
  | .date ms => some ms
  | .arr xs => parse (toStr (.arr xs))
  | .obj fields => parse (toStr (.obj fields))

/-- The product `value * 100` in double precision, for an operand already
converted to a number (`none` is NaN); the result is `none` when it is NaN or
an infinity. -/
def timesHundred (value : Option ℚ) : Option ℚ :=
  match value with
  | some q => ((Double.ofRat q).mul (Double.ofNat 100)).toRat
  | none => none

/-- A number as it is put in a request body; NaN and the infinities have no
JSON form and are sent as null. -/
def numberOrNull : Option ℚ → JsVal
  | some q => .num q
  | none => .null

/-- A thrown error seen as a value (the operand of `err?.message || err`). -/
def JsError.asValue (e : JsError) : JsVal :=
  .obj [("message", .str e.message),
        ("code", match e.code with
                 | some c => .str c
                 | none => .undefined),
        ("response", match e.response with
                     | some r => .obj [("status", .num r.status), ("data", r.data)]
                     | none => .undefined)]

/-- Whether the character list `text` begins with `pat`. -/
def startsWithChars : List Char → List Char → Bool
  | [], _ => true
  | _ :: _, [] => false
  | p :: ps, c :: cs => decide (p = c) && startsWithChars ps cs

/-- Whether `pat` occurs in the character list `text`. -/
def includesChars (pat : List Char) : List Char → Bool
  | [] => pat.isEmpty
  | c :: cs => startsWithChars pat (c :: cs) || includesChars pat cs

/-- The method call `text.includes(pat)`. -/
def includes (text pat : String) : Bool :=
  includesChars pat.data text.data

namespace RegisterFaceScreen

/-- Source `toMessage(val, fallback)`.  `stringify` is `JSON.stringify` on an
object (`none` stands for a throw, which the catch turns into the fallback)
and `toStr` is `String(val)`. -/
def toMessage (stringify : JsVal → Option String) (toStr : JsVal → String)
    (val : JsVal) (fallback : String) : String :=
  match val with
  | .null => fallback
  | .undefined => fallback
  | .str t => t
  | .date ms => (stringify (.date ms)).getD fallback
  | .arr xs => (stringify (.arr xs)).getD fallback
  | .obj fields => (stringify (.obj fields)).getD fallback
  | .bool b => toStr (.bool b)
  | .num q => toStr (.num q)

/-- The value of `faceData` on the registration screen; a `none` confidence is
NaN or an infinity. -/
structure FaceData where
  landmarks : JsVal
  confidence : Option ℚ

/-- The component state of `RegisterFaceScreen` that the handlers touch. -/
structure State where
  selectedStudent : JsVal
  searchQuery : String
  capturedPhoto : Option String
  capturedBase64 : Option String
  loading : Bool
  faceData : FaceData
  currentStep : Nat
  encodingPhoto : Bool

/-- What `takePictureAsync` resolves to on this screen. -/
structure CapturedPhoto where
  uri : String
  base64 : Option String

/-- The state at mount. -/
def initialState : State :=
  { selectedStudent := .null, searchQuery := "", capturedPhoto := none,
    capturedBase64 := none, loading := false,
    faceData := { landmarks := .null, confidence := some 0 }, currentStep := 1,
    encodingPhoto := false }

/-- Source `selectStudent`; `toStr` renders the two names in the template. -/
def selectStudent (toStr : JsVal → String) (s : State) (student : JsVal) : State :=
  { s with selectedStudent := student,
           searchQuery := toStr (student.optProp "first_name") ++ " " ++
             toStr (student.optProp "last_name"),
           currentStep := 2 }

/-- The state reset done after a successful registration and by the OK button
of the duplicate dialog. -/
def resetRegistration (s : State) : State :=
  { s with capturedPhoto := none, capturedBase64 := none,
           faceData := { landmarks := .null, confidence := some 0 },
           selectedStudent := .null, searchQuery := "", currentStep := 1 }

/-- Source `takePhoto`.  `cameraReady` is `cameraRef.current`, `photo` the
outcome of `takePictureAsync`. -/
def takePhoto (stringify : JsVal → Option String) (toStr : JsVal → String)
    (parse : String → Option ℚ) (s : State) (cameraReady : Bool)
    (photo : Except JsError (Option CapturedPhoto)) (net : Net) : State × List Effect :=
  if !cameraReady then (s, [])
  else
    let noData : State × List Effect :=
      ({ s with encodingPhoto := false },
        [.takePicture, .alert "Capture failed" (.str "No image data captured.")])
    match photo with
    | .error e =>
      ({ s with encodingPhoto := false },
        [.takePicture,
         .alert "Capture error"
           (.str (toMessage stringify toStr ((JsVal.str e.message).or e.asValue)
             "Unknown error"))])
    | .ok none => noData
    | .ok (some p) =>
      match p.base64 with
      | none => noData
      | some b64 =>
        if b64 = "" then noData
        else
          let s1 := { s with capturedPhoto := some p.uri, capturedBase64 := some b64 }
          let run := encodeFace net (.str b64)
          let sent := Effect.takePicture :: run.sent.map Effect.request
          let review (s2 : State) : State × List Effect :=
            ({ s2 with encodingPhoto := false, currentStep := 3 }, sent)
          match run.result with
          | .error _ => review s1
          | .ok encResponse =>
            if !(encResponse.optProp "confidence").isUndefined then
              review { s1 with faceData :=
                { landmarks := (encResponse.optProp "landmarks").orNull,
                  confidence :=
                    timesHundred ((encResponse.optProp "confidence").toNumber toStr parse) } }
            else if (encResponse.optProp "error").truthy then
              ({ s1 with capturedPhoto := none, capturedBase64 := none,
                         encodingPhoto := false },
                sent ++ [.alert "Face Detection"
                  (.str "No face detected. Please try again.")])
            else review s1

/-- The test on the error message made by `handleSubmit`. -/
def alreadyRegistered (toLowerCase : String → String) (errorMessage : String) : Bool :=
  includes (toLowerCase errorMessage) "already registered" ||
  includes (toLowerCase errorMessage) "duplicate" ||
  includes (toLowerCase errorMessage) "exists"

/-- The catch block of `handleSubmit`. -/
def submitCatch (stringify : JsVal → Option String) (toStr : JsVal → String)
    (toLowerCase : String → String) (err : JsError) : Effect :=
  let errorMessage :=
    toMessage stringify toStr ((JsVal.str err.message).or err.asValue) "Unknown error"
  if alreadyRegistered toLowerCase errorMessage then
    .alert "Face Already Registered"
      (.str ("This student already has a registered face. Please select a different " ++
        "student or contact administration if this is an error."))
  else .alert "Registration Failed" (.str errorMessage)

/-- The payload that `handleSubmit` passes to `registerFace`. -/
def registrationPayload (toStr : JsVal → String) (parse : String → Option ℚ)
    (selectedStudent : JsVal) (capturedBase64 : String) (encResponse : JsVal) : JsVal :=
  .obj [("student_id", selectedStudent.optProp "id"),
        ("face_encoding", encResponse.optProp "encoding"),
        ("face_image_data", .str capturedBase64),
        ("face_image_mime_type", .str "image/jpeg"),
        ("source", .str "camera_capture"),
        ("device_id", .str "MOBILE_APP"),
        ("confidence_score",
          numberOrNull
            (timesHundred ((encResponse.optProp "confidence").toNumber toStr parse))),
        ("face_landmarks", (encResponse.optProp "landmarks").orNull)]

/-- Source `handleSubmit` of RegisterFaceScreen.js.  The state returned is the
one at return; the OK button of the duplicate dialog later applies
`resetRegistration`. -/
def handleSubmit (stringify : JsVal → Option String) (toStr : JsVal → String)
    (parse : String → Option ℚ) (toLowerCase : String → String)
    (s : State) (st : Storage) (net : Net) : State × List Effect :=
  if !s.selectedStudent.truthy then
    (s, [.alert "Error" (.str "Please select a student.")])
  else
    let noCapture : State × List Effect :=
      (s, [.alert "Error" (.str "Please capture a face first.")])
    match s.capturedBase64 with
    | none => noCapture
    | some capturedBase64 =>
      if capturedBase64 = "" then noCapture
      else
        let idle := { s with loading := false }
        let encRun := encodeFace net (.str capturedBase64)
        let sentEnc := encRun.sent.map Effect.request
        match encRun.result with
        | .error err => (idle, sentEnc ++ [submitCatch stringify toStr toLowerCase err])
        | .ok encResponse =>
          if !(encResponse.optProp "encoding").truthy then
            (idle, sentEnc ++ [.alert "Encoding failed"
              (.str (toMessage stringify toStr
                ((encResponse.optProp "error").or (.str "No face detected"))
                "Unknown error"))])
          else
            let regRun := registerFace st net
              (registrationPayload toStr parse s.selectedStudent capturedBase64 encResponse)
            let sent := sentEnc ++ regRun.sent.map Effect.request
            match regRun.result with
            | .error err => (idle, sent ++ [submitCatch stringify toStr toLowerCase err])
            | .ok result =>
              if (result.optProp "error").truthy || (result.optProp "success").isFalse then
                let errorMessage := toMessage stringify toStr
                  ((result.optProp "message").or
                    ((result.optProp "errors").or (.str "Server rejected the request")))
                  "Unknown error"
                if alreadyRegistered toLowerCase errorMessage then
                  (idle, sent ++ [.alert "Face Already Registered"
                    (.str ("This student already has a registered face. " ++
                      "Please select a different student."))])
                else (idle, sent ++ [.alert "Registration Failed" (.str errorMessage)])
              else
                (resetRegistration idle,
                  sent ++ [.alert "Success" (.str "Face registered successfully!")])

end RegisterFaceScreen

namespace StudentFacesScreen

/-- The component state of `StudentFacesScreen`. -/
structure State where
  isLoading : Bool
  refreshing : Bool
  students : JsVal
  registeredStudents : List JsVal
  unregisteredStudents : List JsVal
  activeTab : String

/-- The state at mount. -/
def initialState : State :=
  { isLoading := true, refreshing := false, students := .arr [], registeredStudents := [],
    unregisteredStudents := [], activeTab := "registered" }

/-- The call `list.filter(student => keep(student.has_face_registered))`, where
`keep` is identity or negation of truthiness; reading the flag of an
undefined or null element throws. -/
def filterByFlag (keep : Bool → Bool) : List JsVal → Except JsError (List JsVal)
  | [] => .ok []
  | student :: rest =>
    match student.getProp "has_face_registered" with
    | .error e => .error e
    | .ok flag =>
      match filterByFlag keep rest with
      | .error e => .error e
      | .ok kept => .ok (if keep flag.truthy then student :: kept else kept)

/-- Source `loadStudentData`. -/
def loadStudentData (s : State) (st : Storage) (net : Net) : State × List Effect :=
  let run := fetchStudentsWithFaceStatus st net
  let sent := run.sent.map Effect.request
  let failed (s1 : State) : State × List Effect :=
    ({ s1 with isLoading := false },
      sent ++ [.alert "Error" (.str "Failed to load student data. Please try again.")])
  match run.result with
  | .error _ => failed s
  | .ok studentsWithFaces =>
    let s1 := { s with students := studentsWithFaces }
    match studentsWithFaces with
    | .arr list =>
      match filterByFlag (fun flag => flag) list with
      | .error _ => failed s1
      | .ok registered =>
        match filterByFlag (fun flag => !flag) list with
        | .error _ => failed s1
        | .ok unregistered =>
          ({ s1 with registeredStudents := registered,
                     unregisteredStudents := unregistered, isLoading := false }, sent)
    | _ => failed s1

end StudentFacesScreen

/-! ## screens/RecognizeFaceScreen.js: the guide circle and the guide style -/

/-- The value `circleTop` of the interval callback as a length in exact arithmetic,
for the comparison with the layout of the guide style (the callback itself
rounds: see `insideCircle`). -/
def circleTop (photo : Photo) : ℚ :=
  photo.height * 0.25

/-- The value `circleLeft` of the interval callback as a length in exact arithmetic,
for the comparison with the layout of the guide style (the callback itself
rounds: see `insideCircle`). -/
def circleLeft (photo : Photo) : ℚ :=
  photo.width * 0.15

/-- The value `circleDiameter` of the interval callback as a length in exact arithmetic,
for the comparison with the layout of the guide style (the callback itself
rounds: see `insideCircle`). -/
def circleDiameter (photo : Photo) : ℚ :=
  photo.width * 0.70

/-- An axis-parallel box: left and top edge, width and height. -/
structure Box where
  left : ℚ
  top : ℚ
  width : ℚ
  height : ℚ

/-- Whether the point `(x, y)` lies in the box, edges included. -/
def Box.contains (b : Box) (x y : ℚ) : Bool :=
  decide (b.left ≤ x ∧ x ≤ b.left + b.width ∧ b.top ≤ y ∧ y ≤ b.top + b.height)

/-- The square that encloses the circle of the distance check. -/
def checkedCircleBox (photo : Photo) : Box :=
  { left := circleLeft photo, top := circleTop photo,
    width := circleDiameter photo, height := circleDiameter photo }

/-- The layout entries of a style with `position: absolute`: `top`, `left`
and `right` as percentages of the parent, `height` and `borderRadius` in
layout units. -/
structure GuideStyle where
  topPercent : ℚ
  leftPercent : ℚ
  rightPercent : ℚ
  height : ℚ
  borderRadius : ℚ

/-- The entry `styles.faceGuide`. -/
def faceGuide : GuideStyle :=
  { topPercent := 25, leftPercent := 15, rightPercent := 15, height := 200,
    borderRadius := 100 }

/-- The box that an absolutely positioned view with the given style occupies
in a parent of the given size: percentages of `top` refer to the parent height,
those of `left` and `right` to the parent width, and the width is what the two
insets leave. -/
def GuideStyle.layout (style : GuideStyle) (frameWidth frameHeight : ℚ) : Box :=
  { left := style.leftPercent / 100 * frameWidth,
    top := style.topPercent / 100 * frameHeight,
    width := frameWidth - style.leftPercent / 100 * frameWidth
      - style.rightPercent / 100 * frameWidth,
    height := style.height }

/-! ## api.js: the fetchers that take an id -/

/-- The test `v === t` for a string literal `t`. -/
def JsVal.isString (v : JsVal) (t : String) : Bool :=
  match v with
  | .str u => decide (u = t)
  | _ => false

/-- The test `v === null`. -/
def JsVal.isNull : JsVal → Bool
  | .null => true
  | _ => false

/-- The guard `!studentId || studentId === 'undefined' || studentId === null`. -/
def invalidStudentId (studentId : JsVal) : Bool :=
  !studentId.truthy || studentId.isString "undefined" || studentId.isNull

/-- The expression `error.response?.status`. -/
def JsError.responseStatus (e : JsError) : JsVal :=
  match e.response with
  | some r => .num r.status
  | none => .undefined

/-- A function body of the shape `try { guard; GET path; return data } catch
(error) { return onError(error) }`: when the guard throws, no request is sent. -/
def guardedGet (st : Storage) (net : Net) (guardError : Option JsError) (path : String)
    (onError : JsError → JsVal) : ApiRun :=
  match guardError with
  | some e => { sent := [], result := .ok (onError e) }
  | none =>
    let req := clientRequest st "GET" path .undefined
    { sent := [req],
      result :=
        match net req with
        | .ok data => .ok data
        | .error e => .ok (onError e) }

/-- Source `fetchViolationById`; `toStr` renders the id in the path. -/
def fetchViolationById (toStr : JsVal → String) (st : Storage) (net : Net) (id : JsVal) :
    ApiRun :=
  guardedGet st net
    (if !id.truthy then some (newError "Violation ID is required") else none)
    ("/violations/" ++ toStr id)
    (fun _ => .obj [("success", .bool false),
                    ("message", .str "Failed to fetch violation by ID")])

/-- Source `fetchViolationDetails`. -/
def fetchViolationDetails (toStr : JsVal → String) (st : Storage) (net : Net)
    (violationId : JsVal) : ApiRun :=
  guardedGet st net
    (if !violationId.truthy then some (newError "Violation ID is required") else none)
    ("/violations/" ++ toStr violationId)
    (fun _ => .obj [("success", .bool false),
                    ("message", .str "Failed to fetch violation details")])

/-- Source `fetchStudentDetails`. -/
def fetchStudentDetails (toStr : JsVal → String) (st : Storage) (net : Net)
    (studentId : JsVal) : ApiRun :=
  guardedGet st net
    (if invalidStudentId studentId then some (newError "Invalid or missing student ID")
     else none)
    ("/students/" ++ toStr studentId)
    (fun error =>
      .obj [("success", .bool false),
            ("message", (error.responseData.optProp "message").or
              ((error.responseData.optProp "error").or
                ((JsVal.str error.message).or (.str "Failed to fetch student details")))),
            ("status", error.responseStatus)])

/-- Source `fetchStudentViolations`. -/
def fetchStudentViolations (toStr : JsVal → String) (st : Storage) (net : Net)
    (studentId : JsVal) : ApiRun :=
  guardedGet st net
    (if invalidStudentId studentId then some (newError "Invalid or missing student ID")
     else none)
    ("/students/" ++ toStr studentId ++ "/violations")
    (fun error =>
      .obj [("success", .bool false),
            ("message", (error.responseData.optProp "message").or
              (.str "Failed to fetch student violations"))])

/-- Source `fetchFaceRegistrations`. -/
def fetchFaceRegistrations (toStr : JsVal → String) (st : Storage) (net : Net)
    (studentId : JsVal) : ApiRun :=
  guardedGet st net
    (if invalidStudentId studentId then some (newError "Invalid or missing student ID")
     else none)
    ("/students/" ++ toStr studentId ++ "/face-registrations")
    (fun error =>
      .obj [("success", .bool false),
            ("message", (error.responseData.optProp "message").or
              (.str "Failed to fetch face registrations"))])

/-! ## App.js and the screens: routes -/

/-- The names of the screens registered in the stack navigator of App.js. -/
def registeredRoutes : List String :=
  ["Login", "Home", "Dashboard", "RegisterFace", "AutoDetectScreen",
   "ViolationHistoryScreen", "ViolationDetailScreen", "StudentDetailScreen",
   "StudentFacesScreen"]

/-- A call `navigation.navigate(route, …)`: the file, the line, and the route name. -/
structure NavigateCall where
  file : String
  line : Nat
  route : String

/-- Every call of `navigation.navigate` in the screens. -/
def navigateCalls : List NavigateCall :=
  [ { file := "LoginScreen.js", line := 60, route := "Home" },
    { file := "HomeScreen.js", line := 31, route := "Login" },
    { file := "HomeScreen.js", line := 37, route := "Login" },
    { file := "HomeScreen.js", line := 47, route := "Dashboard" },
    { file := "HomeScreen.js", line := 56, route := "RegisterFace" },
    { file := "HomeScreen.js", line := 65, route := "AutoDetectScreen" },
    { file := "HomeScreen.js", line := 74, route := "ViolationHistoryScreen" },
    { file := "HomeScreen.js", line := 83, route := "StudentFacesScreen" },
    { file := "HomeScreen.js", line := 92, route := "SettingsScreen" },
    { file := "HomeScreen.js", line := 176, route := "RegisterFace" },
    { file := "HomeScreen.js", line := 177, route := "AutoDetectScreen" },
    { file := "HomeScreen.js", line := 182, route := "ViolationHistoryScreen" },
    { file := "HomeScreen.js", line := 183, route := "StudentFacesScreen" },
    { file := "HomeScreen.js", line := 249, route := "ViolationHistoryScreen" },
    { file := "HomeScreen.js", line := 259, route := "ViolationDetailScreen" },
    { file := "DashboardScreen.js", line := 27, route := "Home" },
    { file := "DashboardScreen.js", line := 36, route := "Dashboard" },
    { file := "DashboardScreen.js", line := 45, route := "RegisterFace" },
    { file := "DashboardScreen.js", line := 54, route := "AutoDetectScreen" },
    { file := "DashboardScreen.js", line := 63, route := "ViolationHistoryScreen" },
    { file := "DashboardScreen.js", line := 72, route := "StudentFacesScreen" },
    { file := "DashboardScreen.js", line := 81, route := "SettingsScreen" },
    { file := "DashboardScreen.js", line := 91, route := "Login" },
    { file := "DashboardScreen.js", line := 428, route := "ViolationHistoryScreen" },
    { file := "DashboardScreen.js", line := 439, route := "ViolationDetailScreen" },
    { file := "ViolationHistoryScreen.js", line := 100, route := "ViolationDetailScreen" },
    { file := "StudentDetailsScreen.js", line := 61, route := "RegisterFace" },
    { file := "StudentDetailsScreen.js", line := 65, route := "ViolationDetailScreen" },
    { file := "StudentFacesScreen.js", line := 55, route := "StudentDetailScreen" },
    { file := "StudentFacesScreen.js", line := 142, route := "RegisterFace" } ]

/-- Whether a navigate call names a registered screen. -/
def NavigateCall.registered (c : NavigateCall) : Bool :=
  registeredRoutes.contains c.route

/-! ## screens/RecognizeFaceScreen.js: the handlers as atomic steps -/

/-- Source `handleEditViolation`. -/
def handleEditViolation (s : ScreenState) : ScreenState :=
  { s with step := "submit" }

/-- The `onPress` of the Cancel button of the form. -/
def cancelSubmit (s : ScreenState) : ScreenState :=
  { s with step := "recognize" }

/-- Source `handleDateChange`. -/
def handleDateChange (s : ScreenState) (selectedDate : Option Int) : ScreenState :=
  match selectedDate with
  | some date =>
    { s with showDatePicker := false,
             violation := { s.violation with violation_date := date } }
  | none => { s with showDatePicker := false }

/-- The edits that the form of step `submit` offers. -/
inductive FormEdit where
  | violationType (itemValue : String) : FormEdit
  | severity (itemValue : String) : FormEdit
  | location (text : String) : FormEdit
  | description (text : String) : FormEdit
  | evidence (text : String) : FormEdit
  | notes (text : String) : FormEdit
  | openDatePicker : FormEdit
  | dateChange (selectedDate : Option Int) : FormEdit

/-- The state after a form edit (`setViolation` with one field replaced, the
date picker handlers, and for the type picker the effect that follows). -/
def applyFormEdit (s : ScreenState) : FormEdit → ScreenState
  | .violationType itemValue => pickViolationType s itemValue
  | .severity itemValue => { s with violation := { s.violation with severity := itemValue } }
  | .location text => { s with violation := { s.violation with location := text } }
  | .description text => { s with violation := { s.violation with description := text } }
  | .evidence text => { s with violation := { s.violation with evidence := text } }
  | .notes text => { s with violation := { s.violation with notes := text } }
  | .openDatePicker => { s with showDatePicker := true }
  | .dateChange selectedDate => handleDateChange s selectedDate

/-- One atomic step of the screen.  A handler can run only while the view that
offers it is rendered: the interval callback while the interval is installed
(step `recognize`), the form handlers in step `submit`, and the two buttons of
the confirmation view when `step` is `submitted` and `submittedViolation` is set. -/
inductive Transition : ScreenState → ScreenState → Prop where
  | typeEffect (s : ScreenState) :
      Transition s { s with violation := typeChangeEffect s.violation }
  | tick (s : ScreenState) (permissionGranted cameraReady : Bool)
      (photo : Except JsError (Option Photo)) (enc : Option EncResponse)
      (recognition : Option Recognition) :
      intervalActive s permissionGranted = true →
      Transition s (liveTick s cameraReady photo enc recognition).1
  | submit (s : ScreenState) (st : Storage) (net : Net) (tz : Int) (proceed : Bool) :
      s.step = "submit" → Transition s (handleSubmit s st net tz proceed).1
  | cancel (s : ScreenState) : s.step = "submit" → Transition s (cancelSubmit s)
  | formEdit (s : ScreenState) (e : FormEdit) :
      s.step = "submit" → Transition s (applyFormEdit s e)
  | edit (s : ScreenState) :
      s.step = "submitted" → s.submittedViolation.isSome = true →
      Transition s (handleEditViolation s)
  | newViolation (s : ScreenState) (now : Int) :
      s.step = "submitted" → s.submittedViolation.isSome = true →
      Transition s (handleNewViolation s now)

/-- The states the screen can be in: the mounted state and what atomic steps
lead to from it. -/
inductive Reachable : ScreenState → Prop where
  | mount (now : Int) : Reachable (initialState now)
  | step (s t : ScreenState) : Reachable s → Transition s t → Reachable t

/-- The state invariant of the recognise-and-submit flow. -/
def FlowInvariant (s : ScreenState) : Prop :=
  (s.step = "recognize" ∨ s.step = "submit" ∨ s.step = "submitted") ∧
  (s.step = "submitted" → s.submittedViolation.isSome = true) ∧
  ((s.step = "submit" ∨ s.step = "submitted") →
    ∃ student, s.recognizedStudent = some student ∧ s.violation.student_id = student.id)

/-! ## Reference values used in the statements -/

/-- The guide circle as the specification states it: centre
`(0.5 w, 0.25 h + 0.35 w)` for a frame of width `w` and height `h`. -/
def specGuideCentre (p : Photo) : ℚ × ℚ :=
  (0.5 * p.width, 0.25 * p.height + 0.35 * p.width)

/-- The radius of the guide circle as the specification states it. -/
def specGuideRadius (p : Photo) : ℚ :=
  0.35 * p.width

/-- The centre of a bounding box `[x1, y1, x2, y2]`. -/
def bboxCentre (bbox : ℚ × ℚ × ℚ × ℚ) : ℚ × ℚ :=
  ((bbox.1 + bbox.2.2.1) / 2, (bbox.2.1 + bbox.2.2.2) / 2)

/-- Squared Euclidean distance of two points. -/
def distSq (a b : ℚ × ℚ) : ℚ :=
  (a.1 - b.1) ^ 2 + (a.2 - b.2) ^ 2

/-- The axios error of an HTTP 409 answer with the given body. -/
def conflictError (body : JsVal) : JsError :=
  { message := "Request failed with status code 409", code := some "ERR_BAD_REQUEST",
    response := some { status := 409, data := body } }

/-- A filled-in form: a recognised student and a description. -/
def filledState : ScreenState :=
  { initialState 0 with
    step := "submit",
    recognizedStudent := some { id := .num 7, first_name := "Ana", last_name := "Cruz" },
    violation := { initialViolation 0 with
      student_id := .num 7,
      description := "Student arrived late to class or school activity" } }

/-- A frame of 1000 by 1000 pixels. -/
def samplePhoto : Photo :=
  { base64 := some "AAAA", width := 1000, height := 1000 }

/-- An encoder answer whose face box sits in the top-left corner of the frame. -/
def cornerFace : EncResponse :=
  { encoding := some [1, 2, 3], bbox := some (0, 0, 100, 100), landmarks := .null,
    confidence := .num 0.9 }

/-- An encoder answer whose face box is centred on the guide circle. -/
def centredFace : EncResponse :=
  { encoding := some [1, 2, 3], bbox := some (400, 500, 600, 700), landmarks := .null,
    confidence := .num 0.9 }

/-- A recognition result in the confidence band. -/
def sampleRecognition : Recognition :=
  { recognized := true, confidence := 0.65,
    student := { id := .num 7, first_name := "Ana", last_name := "Cruz" } }

/-- A store holding the token `abc` under `authToken`. -/
def tokenStore : Storage :=
  fun k => if k = "authToken" then some "abc" else none

/-- The axios error of an HTTP 401 answer whose body carries only an `error` field. -/
def unauthenticatedError : JsError :=
  { message := "Request failed with status code 401", code := some "ERR_BAD_REQUEST",
    response := some { status := 401, data := .obj [("error", .str "Unauthenticated.")] } }

/-- The form of a violation recorded at 2024-11-04 16:30 UTC, which is
2024-11-05 00:30 on a device eight hours ahead of UTC. -/
def lateEveningState : ScreenState :=
  { filledState with violation := { filledState.violation with violation_date := 1730737800000 } }

/-- A backend that reports no duplicate and accepts the violation. -/
def acceptingNet : Net :=
  fun _ => .ok (.obj [("is_duplicate", .bool false), ("success", .bool true)])

/-- The screen after the filled form has been submitted and accepted. -/
def submittedState : ScreenState :=
  (submitViolationData filledState (fun _ => none) acceptingNet 0).1

/-- The registration screen with a student selected, waiting for the capture. -/
def capturingState : RegisterFaceScreen.State :=
  { RegisterFaceScreen.initialState with
    selectedStudent := .obj [("id", .num 7), ("first_name", .str "Ana"),
                             ("last_name", .str "Cruz")],
    searchQuery := "Ana Cruz", currentStep := 2 }

/-- The registration screen on the review step, with a captured image. -/
def reviewState : RegisterFaceScreen.State :=
  { capturingState with capturedPhoto := some "file:///face.jpg",
                        capturedBase64 := some "AAAA", currentStep := 3 }

/-- An encoder answer with an encoding and a confidence of 0.9. -/
def goodEncoding : JsVal :=
  .obj [("encoding", .arr [.num 1, .num 2]), ("confidence", .num 0.9)]

/-- A backend whose encoder succeeds and whose registration endpoint rejects
the request as invalid. -/
def rejectingNet : Net :=
  fun r =>
    if r.url = FLASK_URL ++ "/encode-face" then .ok goodEncoding
    else .ok (.obj [("success", .bool false), ("message", .str "Invalid image")])

/-- Lower-casing of the ASCII letters, the instance of `toLowerCase` used in the examples. -/
def asciiLower (t : String) : String :=
  String.mk (t.data.map Char.toLower)

/-- A backend that lists one registered and one unregistered student. -/
def twoStudentsNet : Net :=
  fun _ => .ok (.obj [("students", .arr
    [.obj [("id", .num 1), ("has_face_registered", .bool true)],
     .obj [("id", .num 2), ("has_face_registered", .bool false)]])])

/-- The centre of a bounding box as the callback computes it, in doubles. -/
def doubleFaceCentre (bbox : ℚ × ℚ × ℚ × ℚ) : Double × Double :=
  (((Double.ofRat bbox.1).add (Double.ofRat bbox.2.2.1)).div (Double.ofNat 2),
   ((Double.ofRat bbox.2.1).add (Double.ofRat bbox.2.2.2)).div (Double.ofNat 2))

/-- The radius of the circle as the callback computes it: `(width * 0.70) / 2` in doubles. -/
def doubleCircleRadius (p : Photo) : Double :=
  ((Double.ofRat p.width).mul (Double.ofDecimal 70 2)).div (Double.ofNat 2)

/-- The centre of the circle as the callback computes it:
`(width * 0.15 + radius, height * 0.25 + radius)` in doubles. -/
def doubleCircleCentre (p : Photo) : Double × Double :=
  (((Double.ofRat p.width).mul (Double.ofDecimal 15 2)).add (doubleCircleRadius p),
   ((Double.ofRat p.height).mul (Double.ofDecimal 25 2)).add (doubleCircleRadius p))

/-- The distance `Math.sqrt(dx * dx + dy * dy)` of two points, in doubles. -/
def doubleDistance (a b : Double × Double) : Double :=
  ((((a.1.sub b.1).mul (a.1.sub b.1)).add ((a.2.sub b.2).mul (a.2.sub b.2)))).sqrt

/-- The double 198.13849704289476, by its exact value. -/
def grazingX : ℚ := 1742844651269787 / 8796093022208

/-- The double 422.8570265788745, by its exact value. -/
def grazingY : ℚ := 3719489740882061 / 8796093022208

/-- An encoder answer whose face box has its centre at
(198.13849704289476, 422.8570265788745), just outside the exact guide circle
of a 1000 by 1000 frame. -/
def grazingFace : EncResponse :=
  { encoding := some [1, 2, 3], bbox := some (grazingX, grazingY, grazingX, grazingY),
    landmarks := .null, confidence := .num 0.9 }

/-- A frame of 720 by 1280 pixels. -/
def portraitPhoto : Photo :=
  { base64 := some "AAAA", width := 720, height := 1280 }

/-- A recognition result above the confidence band. -/
def confidentRecognition : Recognition :=
  { recognized := true, confidence := 0.9,
    student := { id := .num 7, first_name := "Ana", last_name := "Cruz" } }

/-- A login answer that carries a token and no user. -/
def tokenOnlyBody : JsVal :=
  .obj [("token", .str "tok")]

/-- The behaviour of `JSON.stringify` used in the examples: undefined for an
undefined argument, a text otherwise. -/
def sampleStringify : JsVal → Option String
  | .undefined => none
  | _ => some "json"

/-- An encoder answer with an encoding and the confidence 0.57. -/
def ordinaryEncoding : JsVal :=
  .obj [("encoding", .arr [.num 1, .num 2]), ("confidence", .num (57 / 100))]

/-- A backend whose encoder answers `ordinaryEncoding` and whose registration
endpoint accepts the request. -/
def registeringNet : Net :=
  fun r =>
    if r.url = FLASK_URL ++ "/encode-face" then .ok ordinaryEncoding
    else .ok (.obj [("success", .bool true)])

/-! ## Theorems -/

set_option maxRecDepth 100000

/-- The circle test of the callback is the comparison of the double distance
between the two computed centres with the computed radius. -/
theorem insideCircle_eq (p : Photo) (bbox : ℚ × ℚ × ℚ × ℚ) :
    insideCircle p bbox =
      (doubleDistance (doubleFaceCentre bbox) (doubleCircleCentre p)).le
        (doubleCircleRadius p) := by
  rfl

/-- The face box centred on the guide passes the circle test. -/
theorem centredFace_inside : insideCircle samplePhoto (400, 500, 600, 700) = true := by
  decide

/-- The face box in the corner fails the circle test. -/
theorem cornerFace_outside : insideCircle samplePhoto (0, 0, 100, 100) = false := by
  decide

/-- The rational `grazingX` is a double. -/
theorem grazingX_double : Double.ofRat grazingX = .fin 1742844651269787 (-43) := by
  have hnum : grazingX.num = 1742844651269787 := by
    simp only [grazingX]; norm_num
  have hden : grazingX.den = 8796093022208 := by
    simp only [grazingX]; norm_num
  simp only [Double.ofRat, hnum, hden]
  decide

/-- The rational `grazingY` is a double. -/
theorem grazingY_double : Double.ofRat grazingY = .fin 3719489740882061 (-43) := by
  have hnum : grazingY.num = 3719489740882061 := by
    simp only [grazingY]; norm_num
  have hden : grazingY.den = 8796093022208 := by
    simp only [grazingY]; norm_num
  simp only [Double.ofRat, hnum, hden]
  decide

/-- The grazing point passes the circle test of the callback. -/
theorem grazingFace_inside :
    insideCircle samplePhoto (grazingX, grazingY, grazingX, grazingY) = true := by
  simp only [insideCircle, grazingX_double, grazingY_double]
  decide

/-- On the exact boundary of the circle of a 720 by 1280 frame the test fails:
the computed radius is below 252. -/
theorem boundary_point_rejected :
    insideCircle portraitPhoto (58, 522, 158, 622) = false ∧
    distSq (bboxCentre (58, 522, 158, 622)) (specGuideCentre portraitPhoto)
      = (specGuideRadius portraitPhoto) ^ 2 := by
  constructor
  · decide
  · simp only [distSq, bboxCentre, specGuideCentre, specGuideRadius, portraitPhoto]
    norm_num

/-- C1: when the form has no student or no description, `handleSubmit` shows
an error alert and returns at once: the state (in particular `step`) is
unchanged and no network call is among its effects. -/
theorem handleSubmit_rejects_incomplete_form (s : ScreenState) (st : Storage) (net : Net)
    (tz : Int) (proceed : Bool)
    (h : s.violation.student_id.truthy = false ∨ s.violation.description = "") :
    (handleSubmit s st net tz proceed).1 = s ∧
    (handleSubmit s st net tz proceed).1.step = s.step ∧
    (∃ msg, (handleSubmit s st net tz proceed).2 = [Effect.alert "Error" msg]) ∧
    (∀ e ∈ (handleSubmit s st net tz proceed).2, e.isNetwork = false) := by
  unfold handleSubmit
  by_cases h1 : s.violation.student_id.truthy = true
  · have h2 : s.violation.description = "" := by
      rcases h with h | h
      · rw [h] at h1; exact absurd h1 (by decide)
      · exact h
    simp [h1, h2, Effect.isNetwork]
  · simp [h1, Effect.isNetwork]

/-- Instance of C1: the freshly mounted form has no description and is rejected. -/
theorem handleSubmit_rejects_incomplete_form_witness :
    (initialState 0).violation.description = "" ∧
    (handleSubmit (initialState 0) (fun _ => none) (fun _ => .ok .null) 0 true).1
      = initialState 0 :=
  ⟨rfl, (handleSubmit_rejects_incomplete_form (initialState 0) (fun _ => none)
    (fun _ => .ok .null) 0 true (Or.inr rfl)).1⟩

/-- The request of `submitViolation` goes to `BASE_URL/violations`, token or not. -/
theorem submitViolationRequest_url (st : Storage) (v : JsVal) :
    (submitViolationRequest st v).url = BASE_URL ++ "/violations" := by
  simp only [submitViolationRequest, clientRequest, requestInterceptor]
  split
  · split <;> rfl
  · rfl

/-- A 409 answer makes `submitViolation` return the error body. -/
theorem submitViolation_conflict (st : Storage) (net : Net) (v : JsVal) (e : JsError)
    (body : JsVal) (hn : net (submitViolationRequest st v) = .error e)
    (hresp : e.response = some { status := 409, data := body }) :
    (submitViolation st net v).result = .ok body := by
  simp [submitViolation, hn, JsError.isConflict, JsError.responseData, hresp]

/-- What `submitViolationData` does with a 409 answer depends on the body: the
duplicate dialog appears exactly when `success` is falsy and `is_duplicate` truthy. -/
theorem submitViolationData_conflict (s : ScreenState) (st : Storage) (net : Net) (tz : Int)
    (e : JsError) (body : JsVal)
    (hnet : ∀ r : RequestConfig, r.url = BASE_URL ++ "/violations" → net r = .error e)
    (hresp : e.response = some { status := 409, data := body }) :
    (submitViolationData s st net tz).2.any (Effect.isAlert "Duplicate Violation") =
      (!(body.optProp "success").truthy && (body.optProp "is_duplicate").truthy) := by
  have hres := submitViolation_conflict st net (.obj (s.violation.fields ++
      [("date", .str (isoDate (s.violation.violation_date - tz * 60000)))])) e body
      (hnet _ (submitViolationRequest_url st _)) hresp
  simp only [submitViolationData, hres]
  cases body with
  | obj fields =>
    simp only [JsVal.getProp, JsVal.optProp]
    split_ifs with h1 h2 <;> simp_all [Effect.isAlert, submitViolation]
  | undefined => simp [JsVal.getProp, JsVal.optProp, JsVal.truthy, submitCatch, typeError,
      JsError.isConflict, Effect.isAlert, submitViolation]
  | null => simp [JsVal.getProp, JsVal.optProp, JsVal.truthy, submitCatch, typeError,
      JsError.isConflict, Effect.isAlert, submitViolation]
  | bool b => simp [JsVal.getProp, JsVal.optProp, JsVal.truthy, Effect.isAlert, submitViolation, JsVal.or]
  | num q => simp [JsVal.getProp, JsVal.optProp, JsVal.truthy, Effect.isAlert, submitViolation, JsVal.or]
  | str t => simp [JsVal.getProp, JsVal.optProp, JsVal.truthy, Effect.isAlert, submitViolation, JsVal.or]
  | date ms => simp [JsVal.getProp, JsVal.optProp, JsVal.truthy, Effect.isAlert, submitViolation, JsVal.or]
  | arr xs => simp [JsVal.getProp, JsVal.optProp, JsVal.truthy, Effect.isAlert, submitViolation, JsVal.or]

/-- C2, the defect: a 409 answer whose body has no `is_duplicate` flag ends in
the generic `Error` alert and never shows `Duplicate Violation`. -/
theorem submitViolationData_conflict_shows_generic_error :
    (submitViolationData filledState (fun _ => none)
        (fun _ => .error (conflictError (.obj [("message", .str "Already recorded")])))
        0).2.any (Effect.isAlert "Error") = true ∧
    (submitViolationData filledState (fun _ => none)
        (fun _ => .error (conflictError (.obj [("message", .str "Already recorded")])))
        0).2.any (Effect.isAlert "Duplicate Violation") = false := by
  constructor <;>
  simp [submitViolationData, submitViolation, conflictError, JsError.isConflict,
    JsError.responseData, JsVal.getProp, JsVal.optProp, JsVal.truthy, JsVal.or,
    Effect.isAlert, List.lookup]

/-- A 409 answer whose body has a truthy `success` field moves the flow to `submitted`. -/
theorem submitViolationData_conflict_success_body :
    (submitViolationData filledState (fun _ => none)
        (fun _ => .error (conflictError (.obj [("success", .bool true)])))
        0).1.step = "submitted" := by
  simp [submitViolationData, submitViolation, conflictError, JsError.isConflict,
    JsError.responseData, JsVal.getProp, JsVal.optProp, JsVal.truthy, JsVal.or,
    Effect.isAlert, List.lookup]

/-- Inversion of the interval callback: a recognition call means the photo was
taken, the encoder gave an encoding and a bbox inside the circle, and the final
state is the recognition step applied to a state with the same step and form. -/
theorem liveTick_call_inv (s : ScreenState) (cameraReady : Bool)
    (photo : Except JsError (Option Photo)) (enc : Option EncResponse)
    (recognition : Option Recognition) (encoding : List ℚ)
    (h : Effect.recognizeFaceCall encoding ∈ (liveTick s cameraReady photo enc recognition).2) :
    ∃ p r bbox s2, photo = .ok (some p) ∧ enc = some r ∧ r.encoding = some encoding ∧
      r.bbox = some bbox ∧ insideCircle p bbox = true ∧
      s2.step = s.step ∧ s2.violation = s.violation ∧
      (liveTick s cameraReady photo enc recognition).1 =
        { applyRecognition s2 recognition with isProcessing := false } := by
  unfold liveTick at h ⊢
  split_ifs at h ⊢ with hc
  · rcases photo with e | _ | p
    · simp at h
    · simp at h
    · rcases hb : p.base64 with _ | b64
      · simp [hb] at h
      · simp only [hb] at h ⊢
        split_ifs at h ⊢ with hb0
        · simp at h
        · rcases enc with _ | r
          · simp at h
          · rcases he : r.encoding with _ | en
            · simp [he] at h
            · rcases hbb : r.bbox with _ | bbox
              · simp [he, hbb] at h
              · simp only [he, hbb, Option.bind_some, Option.some_bind] at h ⊢
                split_ifs at h ⊢ with hin
                · simp at h
                  subst h
                  exact ⟨p, r, bbox,
                    { s with isProcessing := true, detectionStatus := "detecting",
                             faceData := { landmarks := r.landmarks, confidence := r.confidence,
                                           bbox := some bbox,
                                           insideCircle := some (insideCircle p bbox) } },
                    rfl, rfl, he, hbb, hin, rfl, rfl, rfl⟩
                · simp at h
  · simp at h

/-- The run of the interval callback for a face outside the circle. -/
theorem liveTick_outside (s : ScreenState) (photo : Except JsError (Option Photo))
    (enc : Option EncResponse) (recognition : Option Recognition)
    (p : Photo) (r : EncResponse) (b64 : String) (encoding : List ℚ) (bbox : ℚ × ℚ × ℚ × ℚ)
    (hproc : s.isProcessing = false)
    (hphoto : photo = .ok (some p)) (hb : p.base64 = some b64) (hb0 : b64 ≠ "")
    (henc : enc = some r) (he : r.encoding = some encoding) (hbb : r.bbox = some bbox)
    (hout : insideCircle p bbox = false) :
    liveTick s true photo enc recognition =
      ({ s with isProcessing := false, detectionStatus := "no_face",
                faceData := { landmarks := r.landmarks, confidence := r.confidence,
                              bbox := some bbox, insideCircle := some false } },
        [.takePicture, .encodeFaceCall b64]) := by
  subst hphoto henc
  simp [liveTick, hproc, hb, hb0, he, hbb, hout]

/-- The run of the interval callback for a face inside the circle: the three
calls are made and the recognition step is applied to the state in which the
face data has been recorded. -/
theorem liveTick_inside (s : ScreenState) (recognition : Option Recognition)
    (p : Photo) (r : EncResponse) (b64 : String) (encoding : List ℚ) (bbox : ℚ × ℚ × ℚ × ℚ)
    (hproc : s.isProcessing = false)
    (hb : p.base64 = some b64) (hb0 : b64 ≠ "")
    (he : r.encoding = some encoding) (hbb : r.bbox = some bbox)
    (hin : insideCircle p bbox = true) :
    liveTick s true (.ok (some p)) (some r) recognition =
      ({ applyRecognition
           { s with isProcessing := true, detectionStatus := "detecting",
                    faceData := { landmarks := r.landmarks, confidence := r.confidence,
                                  bbox := some bbox, insideCircle := some true } }
           recognition with isProcessing := false },
        [.takePicture, .encodeFaceCall b64, .recognizeFaceCall encoding]) := by
  simp [liveTick, hproc, hb, hb0, he, hbb, hin]

/-- Counterexample to C3 as worded: in a 1000 by 1000 frame the callback calls
`recognizeFace` for a face whose centre (198.13849704289476, 422.8570265788745)
lies outside the circle of radius `0.35 * width` around
`(0.5 * width, 0.25 * height + 0.35 * width)`: rounding puts the computed
distance at the computed radius. -/
theorem recognizeFace_called_outside_exact_circle :
    Effect.recognizeFaceCall [1, 2, 3]
      ∈ (liveTick (initialState 0) true (.ok (some samplePhoto)) (some grazingFace) none).2 ∧
    ((specGuideRadius samplePhoto : ℚ) : ℝ) <
      Real.sqrt ((distSq (bboxCentre (grazingX, grazingY, grazingX, grazingY))
        (specGuideCentre samplePhoto) : ℚ) : ℝ) := by
  constructor
  · rw [liveTick_inside (initialState 0) none samplePhoto grazingFace "AAAA" [1, 2, 3]
      (grazingX, grazingY, grazingX, grazingY) rfl rfl (by decide) rfl rfl grazingFace_inside]
    simp
  · rw [Real.lt_sqrt (by simp only [specGuideRadius, samplePhoto]; norm_num)]
    have h : (specGuideRadius samplePhoto) ^ 2 <
        distSq (bboxCentre (grazingX, grazingY, grazingX, grazingY))
          (specGuideCentre samplePhoto) := by
      simp only [specGuideRadius, samplePhoto, distSq, bboxCentre, specGuideCentre, grazingX,
        grazingY]
      norm_num
    exact_mod_cast h

/-- C3 (amended): in one run of the interval callback, `recognizeFace` is called
only when the encoder returned an encoding and a bbox that passes the distance
test as the callback computes it in double precision: the distance
`Math.sqrt(dx * dx + dy * dy)` between the computed face centre and the
computed circle centre `(width * 0.15 + radius, height * 0.25 + radius)` is at
most the computed radius `(width * 0.70) / 2`.  When the callback runs and the
computed test fails, no recognition call is made and `detectionStatus` ends as
`no_face`. -/
theorem liveTick_recognizes_only_inside_guide (s : ScreenState) (cameraReady : Bool)
    (photo : Except JsError (Option Photo)) (enc : Option EncResponse)
    (recognition : Option Recognition) :
    (∀ encoding, Effect.recognizeFaceCall encoding ∈
        (liveTick s cameraReady photo enc recognition).2 →
      ∃ p r bbox, photo = .ok (some p) ∧ enc = some r ∧ r.encoding = some encoding ∧
        r.bbox = some bbox ∧
        (doubleDistance (doubleFaceCentre bbox) (doubleCircleCentre p)).le
          (doubleCircleRadius p) = true) ∧
    (∀ p r b64 encoding bbox, cameraReady = true → s.isProcessing = false →
      photo = .ok (some p) → p.base64 = some b64 → b64 ≠ "" →
      enc = some r → r.encoding = some encoding → r.bbox = some bbox →
      (doubleDistance (doubleFaceCentre bbox) (doubleCircleCentre p)).le
        (doubleCircleRadius p) = false →
      (liveTick s cameraReady photo enc recognition).2
        = [Effect.takePicture, Effect.encodeFaceCall b64] ∧
      (∀ e ∈ (liveTick s cameraReady photo enc recognition).2, e.isNetwork = true →
          e = Effect.encodeFaceCall b64) ∧
      (liveTick s cameraReady photo enc recognition).1.detectionStatus = "no_face") := by
  constructor
  · intro encoding h
    obtain ⟨p, r, bbox, _, hp, hr, he, hbb, hin, _⟩ :=
      liveTick_call_inv s cameraReady photo enc recognition encoding h
    exact ⟨p, r, bbox, hp, hr, he, hbb, (insideCircle_eq p bbox) ▸ hin⟩
  · intro p r b64 encoding bbox hc hproc hphoto hb hb0 henc he hbb hfar
    have hout : insideCircle p bbox = false := (insideCircle_eq p bbox).trans hfar
    subst hc
    rw [liveTick_outside s photo enc recognition p r b64 encoding bbox hproc hphoto hb hb0
      henc he hbb hout]
    refine ⟨rfl, ?_, rfl⟩
    intro e hmem hnet
    simp only [List.mem_cons, List.mem_singleton, List.not_mem_nil, or_false] at hmem
    rcases hmem with h | h
    · subst h; simp [Effect.isNetwork] at hnet
    · exact h

/-- Instance of C3: a face box in the top-left corner of a 1000 by 1000 frame. -/
theorem liveTick_recognizes_only_inside_guide_witness :
    (liveTick (initialState 0) true (.ok (some samplePhoto)) (some cornerFace) none).2
      = [Effect.takePicture, Effect.encodeFaceCall "AAAA"] ∧
    (liveTick (initialState 0) true (.ok (some samplePhoto)) (some cornerFace) none).1.detectionStatus
      = "no_face" :=
  ⟨((liveTick_recognizes_only_inside_guide (initialState 0) true (.ok (some samplePhoto))
      (some cornerFace) none).2 samplePhoto cornerFace "AAAA" [1, 2, 3] (0, 0, 100, 100)
      rfl rfl rfl rfl (by decide) rfl rfl rfl
      ((insideCircle_eq samplePhoto (0, 0, 100, 100)).symm.trans cornerFace_outside)).1,
   ((liveTick_recognizes_only_inside_guide (initialState 0) true (.ok (some samplePhoto))
      (some cornerFace) none).2 samplePhoto cornerFace "AAAA" [1, 2, 3] (0, 0, 100, 100)
      rfl rfl rfl rfl (by decide) rfl rfl rfl
      ((insideCircle_eq samplePhoto (0, 0, 100, 100)).symm.trans cornerFace_outside)).2.2⟩

/-- The confidence band, on the recognition step alone. -/
theorem applyRecognition_band (s : ScreenState) (r : Recognition)
    (hstep : s.step = "recognize") (hrec : r.recognized = true) :
    ((applyRecognition s (some r)).step = "submit" ↔
        (0.5 ≤ r.confidence ∧ r.confidence < 0.8)) ∧
    ((0.5 ≤ r.confidence ∧ r.confidence < 0.8) →
        (applyRecognition s (some r)).recognizedStudent = some r.student ∧
        (applyRecognition s (some r)).violation.student_id = r.student.id) ∧
    (¬ (0.5 ≤ r.confidence ∧ r.confidence < 0.8) →
        (applyRecognition s (some r)).step = "recognize" ∧
        (applyRecognition s (some r)).violation.student_id = s.violation.student_id) := by
  by_cases hband : r.confidence ≥ 0.5 ∧ r.confidence < 0.8
  · have hb : (0.5 ≤ r.confidence ∧ r.confidence < 0.8) := hband
    simp [applyRecognition, hrec, hb]
  · have hb : ¬ (0.5 ≤ r.confidence ∧ r.confidence < 0.8) := hband
    simp only [applyRecognition, hrec, if_true, ge_iff_le, hb, if_false, hstep]
    simp [hb]

/-- C4: when a run of the interval callback in step `recognize` reaches the
recogniser (camera ready, not processing, a photo with image data, an encoding
and a bbox that passes the circle test) and receives a result with `recognized`
true and confidence `c`, then the three calls are made and the step becomes
`submit`, with `recognizedStudent` the returned student and
`violation.student_id` its id, exactly when `0.5 ≤ c < 0.8`; otherwise the step
stays `recognize` and the form keeps its `student_id`.  In both cases the rest
of the final state is the initial one with the face data, the live recognition
and the confidence level recorded. -/
theorem liveTick_confidence_band (s : ScreenState) (p : Photo) (b64 : String)
    (r : EncResponse) (encoding : List ℚ) (bbox : ℚ × ℚ × ℚ × ℚ) (recognition : Recognition)
    (hstep : s.step = "recognize") (hproc : s.isProcessing = false)
    (hb : p.base64 = some b64) (hb0 : b64 ≠ "")
    (he : r.encoding = some encoding) (hbb : r.bbox = some bbox)
    (hin : insideCircle p bbox = true) (hrec : recognition.recognized = true) :
    (liveTick s true (.ok (some p)) (some r) (some recognition)).2
      = [Effect.takePicture, Effect.encodeFaceCall b64, Effect.recognizeFaceCall encoding] ∧
    ((liveTick s true (.ok (some p)) (some r) (some recognition)).1.step = "submit" ↔
        (0.5 ≤ recognition.confidence ∧ recognition.confidence < 0.8)) ∧
    ((0.5 ≤ recognition.confidence ∧ recognition.confidence < 0.8) →
        (liveTick s true (.ok (some p)) (some r) (some recognition)).1
          = { s with
              isProcessing := false,
              detectionStatus := "recognized",
              faceData := { landmarks := r.landmarks, confidence := r.confidence,
                            bbox := some bbox, insideCircle := some true },
              liveRecognition := some { confidence := recognition.confidence,
                                        student := recognition.student },
              confidenceLevel := recognition.confidence,
              recognizedStudent := some recognition.student,
              violation := { s.violation with student_id := recognition.student.id },
              step := "submit" }) ∧
    (¬ (0.5 ≤ recognition.confidence ∧ recognition.confidence < 0.8) →
        (liveTick s true (.ok (some p)) (some r) (some recognition)).1.step = "recognize" ∧
        (liveTick s true (.ok (some p)) (some r) (some recognition)).1.violation.student_id
          = s.violation.student_id ∧
        (liveTick s true (.ok (some p)) (some r) (some recognition)).1
          = { s with
              isProcessing := false,
              detectionStatus := "recognized",
              faceData := { landmarks := r.landmarks, confidence := r.confidence,
                            bbox := some bbox, insideCircle := some true },
              liveRecognition := some { confidence := recognition.confidence,
                                        student := recognition.student },
              confidenceLevel := recognition.confidence }) := by
  rw [liveTick_inside s (some recognition) p r b64 encoding bbox hproc hb hb0 he hbb hin]
  have hne : ¬ ("recognize" = "submit") := by decide
  by_cases hband : recognition.confidence ≥ 0.5 ∧ recognition.confidence < 0.8
  · have hb2 : (0.5 ≤ recognition.confidence ∧ recognition.confidence < 0.8) := hband
    simp [applyRecognition, hrec, hb2]
  · have hb2 : ¬ (0.5 ≤ recognition.confidence ∧ recognition.confidence < 0.8) := hband
    simp only [applyRecognition, hrec, if_true, ge_iff_le, hb2, if_false, hstep]
    simp [hb2]

/-- Instance of C4: a centred face recognised with confidence 0.65 moves the
flow to `submit` for the returned student, and the same face recognised with
confidence 0.9 leaves it in `recognize`. -/
theorem liveTick_confidence_band_witness :
    ((liveTick (initialState 0) true (.ok (some samplePhoto)) (some centredFace)
        (some sampleRecognition)).2
        = [Effect.takePicture, Effect.encodeFaceCall "AAAA",
           Effect.recognizeFaceCall [1, 2, 3]] ∧
      (liveTick (initialState 0) true (.ok (some samplePhoto)) (some centredFace)
        (some sampleRecognition)).1.step = "submit") ∧
    ((liveTick (initialState 0) true (.ok (some samplePhoto)) (some centredFace)
        (some confidentRecognition)).1.step = "recognize" ∧
      (liveTick (initialState 0) true (.ok (some samplePhoto)) (some centredFace)
        (some confidentRecognition)).1.violation.student_id = .str "") :=
  ⟨⟨(liveTick_confidence_band (initialState 0) samplePhoto "AAAA" centredFace [1, 2, 3]
        (400, 500, 600, 700) sampleRecognition rfl rfl rfl (by decide) rfl rfl
        centredFace_inside rfl).1,
    (liveTick_confidence_band (initialState 0) samplePhoto "AAAA" centredFace [1, 2, 3]
        (400, 500, 600, 700) sampleRecognition rfl rfl rfl (by decide) rfl rfl
        centredFace_inside rfl).2.1.2 (by simp only [sampleRecognition]; norm_num)⟩,
   ⟨((liveTick_confidence_band (initialState 0) samplePhoto "AAAA" centredFace [1, 2, 3]
        (400, 500, 600, 700) confidentRecognition rfl rfl rfl (by decide) rfl rfl
        centredFace_inside rfl).2.2.2 (by simp only [confidentRecognition]; norm_num)).1,
    ((liveTick_confidence_band (initialState 0) samplePhoto "AAAA" centredFace [1, 2, 3]
        (400, 500, 600, 700) confidentRecognition rfl rfl rfl (by decide) rfl rfl
        centredFace_inside rfl).2.2.2 (by simp only [confidentRecognition]; norm_num)).2.1⟩⟩

/-- C5: `submitViolation` returns the body of a successful request, returns
the error response body of a 409 failure without throwing, and rethrows the
original error for every other failure (another status, or no response). -/
theorem submitViolation_result (st : Storage) (net : Net) (violation : JsVal) :
    (∀ data, net (submitViolationRequest st violation) = .ok data →
      (submitViolation st net violation).result = .ok data) ∧
    (∀ e body, net (submitViolationRequest st violation) = .error e →
      e.response = some { status := 409, data := body } →
      (submitViolation st net violation).result = .ok body) ∧
    (∀ e, net (submitViolationRequest st violation) = .error e →
      (∀ resp, e.response = some resp → resp.status ≠ 409) →
      (submitViolation st net violation).result = .error e) := by
  refine ⟨?_, ?_, ?_⟩
  · intro data h
    simp [submitViolation, h]
  · intro e body h hresp
    simp [submitViolation, h, JsError.isConflict, JsError.responseData, hresp]
  · intro e h hne
    rcases hr : e.response with _ | resp
    · simp [submitViolation, h, JsError.isConflict, hr]
    · simp [submitViolation, h, JsError.isConflict, hr, hne resp hr]

/-- Instance of C5: a transport failure is rethrown. -/
theorem submitViolation_result_witness :
    (submitViolation (fun _ => none) (fun _ => .error (newError "Network Error"))
      .null).result = .error (newError "Network Error") :=
  (submitViolation_result (fun _ => none) (fun _ => .error (newError "Network Error"))
    .null).2.2 (newError "Network Error") rfl (by simp [newError])

/-- Requests made through `client` carry `Bearer token` when a non-empty token is
stored, and no `Authorization` header when none is. -/
theorem clientRequest_authorization (st : Storage) (method path : String) (data : JsVal) :
    (∀ token, st.getItem "authToken" = some token → token ≠ "" →
      (clientRequest st method path data).authorization = some ("Bearer " ++ token)) ∧
    ((st.getItem "authToken" = none ∨ st.getItem "authToken" = some "") →
      (clientRequest st method path data).authorization = none) := by
  constructor
  · intro token h h0
    simp [clientRequest, requestInterceptor, h, h0, RequestConfig.authorization, setHeader,
      List.lookup]
  · rintro (h | h) <;>
    simp [clientRequest, requestInterceptor, h, RequestConfig.authorization, List.lookup]

/-- C6, the defect: with a token stored, requests made through `client` carry
the bearer header, but the request of `checkDuplicateViolation` carries no
`Authorization` header. -/
theorem checkDuplicateViolation_sends_no_token :
    (submitViolation tokenStore (fun _ => .ok .null) .null).sent.map RequestConfig.authorization
      = [some "Bearer abc"] ∧
    (checkDuplicateViolation (fun _ => .ok .null) .null).sent.map RequestConfig.authorization
      = [none] := by
  constructor
  · simp [submitViolation, submitViolationRequest, clientRequest, requestInterceptor, tokenStore,
      Storage.getItem, RequestConfig.authorization, setHeader, List.lookup]
  · simp [checkDuplicateViolation, checkDuplicateViolationRequest, RequestConfig.authorization,
      List.lookup]

/-- No request of `checkDuplicateViolation` carries an `Authorization` header. -/
theorem checkDuplicateViolation_never_authorized (net : Net) (data : JsVal) :
    ∀ r ∈ (checkDuplicateViolation net data).sent,
      r.authorization = none ∧ r.url = BASE_URL ++ "/check-duplicate-violation" := by
  intro r hr
  simp only [checkDuplicateViolation, List.mem_singleton] at hr
  subst hr
  simp [checkDuplicateViolationRequest, RequestConfig.authorization, List.lookup]

/-- C7 (amended): when the login answer has no error, its token is a non-empty
string and `JSON.stringify` turns its user into a string, `handleLogin` stores
the token under `authToken` and the serialised user under `userData`;
afterwards `savedEmail` and `savedPassword` hold the entered credentials if
`rememberMe` is set and are absent if it is not. -/
theorem handleLogin_stores_session (email password : String) (rememberMe : Bool)
    (stringify : JsVal → Option String) (toStr : JsVal → String)
    (st : Storage) (net : Net) (body : JsVal) (token userText : String)
    (hemail : email ≠ "") (hpw : password ≠ "")
    (hnet : net (loginRequest st email password) = .ok body)
    (herr : (body.optProp "error").truthy = false)
    (htok : body.optProp "token" = .str token) (htok0 : token ≠ "")
    (huser : stringify (body.optProp "user") = some userText) :
    (handleLogin email password rememberMe stringify toStr st net).storage.getItem "authToken"
      = some token ∧
    (handleLogin email password rememberMe stringify toStr st net).storage.getItem "userData"
      = some userText ∧
    (rememberMe = true →
      (handleLogin email password rememberMe stringify toStr st net).storage.getItem "savedEmail"
        = some email ∧
      (handleLogin email password rememberMe stringify toStr st net).storage.getItem "savedPassword"
        = some password) ∧
    (rememberMe = false →
      (handleLogin email password rememberMe stringify toStr st net).storage.getItem "savedEmail"
        = none ∧
      (handleLogin email password rememberMe stringify toStr st net).storage.getItem "savedPassword"
        = none) := by
  cases body with
  | obj fields =>
    simp only [JsVal.optProp] at herr htok huser
    have ht : (JsVal.str token).truthy = true := by simp [JsVal.truthy, htok0]
    cases rememberMe <;>
    · simp only [handleLogin, login, hnet, hemail, hpw, or_self, if_false, JsVal.getProp,
        JsVal.optProp, Except.bind, Except.map, herr, htok, ht, huser, storeItem,
        HandlerRun.andThen, dropItem, if_true, Bool.false_eq_true]
      cases (fields.lookup "user").getD JsVal.undefined <;>
        simp [JsVal.getProp, Storage.getItem, Storage.setItem, Storage.removeItem]
  | _ => simp [JsVal.optProp] at htok

/-- Instance of C7: a login answer with token `tok`. -/
theorem handleLogin_stores_session_witness :
    (handleLogin "guard@school.edu" "secret" true (fun _ => some "user-json") (fun _ => "Ana")
      (fun _ => none)
      (fun _ => .ok (.obj [("token", .str "tok"), ("user", .obj [("name", .str "Ana")])]))
      ).storage.getItem "authToken" = some "tok" :=
  (handleLogin_stores_session "guard@school.edu" "secret" true (fun _ => some "user-json")
    (fun _ => "Ana") (fun _ => none)
    (fun _ => .ok (.obj [("token", .str "tok"), ("user", .obj [("name", .str "Ana")])]))
    (.obj [("token", .str "tok"), ("user", .obj [("name", .str "Ana")])]) "tok" "user-json"
    (by decide) (by decide) rfl (by simp [JsVal.optProp, List.lookup, JsVal.truthy])
    (by simp [JsVal.optProp, List.lookup]) (by decide) rfl).1

/-- Counterexample to C7 as worded: the login answer whose only field is the
token `tok` has no error and carries a token, and `rememberMe` is set; `handleLogin` stores the
token, then `JSON.stringify(undefined)` is undefined, the store rejects it, and
neither `userData` nor the entered credentials are stored. -/
theorem handleLogin_token_without_user :
    (tokenOnlyBody.optProp "error").truthy = false ∧
    (tokenOnlyBody.optProp "token").truthy = true ∧
    (handleLogin "guard@school.edu" "secret" true sampleStringify (fun _ => "")
      (fun _ => none) (fun _ => .ok tokenOnlyBody)).storage.getItem "authToken" = some "tok" ∧
    (handleLogin "guard@school.edu" "secret" true sampleStringify (fun _ => "")
      (fun _ => none) (fun _ => .ok tokenOnlyBody)).storage.getItem "userData" = none ∧
    (handleLogin "guard@school.edu" "secret" true sampleStringify (fun _ => "")
      (fun _ => none) (fun _ => .ok tokenOnlyBody)).storage.getItem "savedEmail" = none ∧
    (handleLogin "guard@school.edu" "secret" true sampleStringify (fun _ => "")
      (fun _ => none) (fun _ => .ok tokenOnlyBody)).storage.getItem "savedPassword" = none := by
  refine ⟨rfl, rfl, ?_, ?_, ?_, ?_⟩ <;>
    simp [handleLogin, login, tokenOnlyBody, sampleStringify, JsVal.getProp, JsVal.optProp,
      JsVal.truthy, List.lookup, Except.bind, Except.map, storeItem, HandlerRun.andThen,
      Storage.getItem, Storage.setItem]

/-- C8: whatever the awaited `logout()` call produces (a success body, an
error object, or a thrown exception), the Home sidebar's `handleLogout`
removes `authToken` from local storage and then navigates to `Login`. -/
theorem handleLogout_always_clears_token (st : Storage) (net : Net)
    (outcome : Except JsError JsVal) :
    (handleLogoutWith st outcome).effects
      = [Effect.storageRemove "authToken", Effect.navigate "Login"] ∧
    (handleLogoutWith st outcome).storage.getItem "authToken" = none ∧
    (handleLogoutWith st outcome).thrown = none ∧
    (handleLogout st net).effects
      = [Effect.request (logoutRequest st), Effect.storageRemove "authToken",
         Effect.navigate "Login"] ∧
    (handleLogout st net).storage.getItem "authToken" = none := by
  have key : ∀ o : Except JsError JsVal,
      (handleLogoutWith st o).effects
        = [Effect.storageRemove "authToken", Effect.navigate "Login"] ∧
      (handleLogoutWith st o).storage.getItem "authToken" = none ∧
      (handleLogoutWith st o).thrown = none := by
    intro o
    unfold handleLogoutWith
    split <;> simp [dropItem, Storage.getItem, Storage.removeItem]
  refine ⟨(key outcome).1, (key outcome).2.1, (key outcome).2.2, ?_, ?_⟩
  · simp only [handleLogout, (key _).1]
    rfl
  · simp only [handleLogout]
    exact (key _).2.1

/-- C9, the defect: the Logout item of the Dashboard sidebar navigates to
`Login` and leaves the stored token in place, whereas the Home sidebar's
logout removes it. -/
theorem dashboardLogout_keeps_token :
    (dashboardLogoutAction tokenStore).effects = [Effect.closeSidebar, Effect.navigate "Login"] ∧
    (dashboardLogoutAction tokenStore).storage.getItem "authToken" = some "abc" ∧
    (handleLogout tokenStore (fun _ => .ok .null)).storage.getItem "authToken" = none := by
  refine ⟨rfl, rfl, ?_⟩
  simp [handleLogout, handleLogoutWith, logout, Except.bind, JsVal.getProp, dropItem,
    Storage.getItem, Storage.removeItem]

/-- C10: `fetchStudents`, `fetchStudentsWithFaceStatus` and `fetchViolations`
never throw; the two student fetchers return the empty list whenever the
request fails or its body has no `students` field, and `fetchViolations`
returns its fixed fallback object whenever the request fails. -/
theorem list_fetchers_never_throw (st : Storage) (net : Net) :
    (∃ v, (fetchStudents st net).result = .ok v) ∧
    (∃ v, (fetchStudentsWithFaceStatus st net).result = .ok v) ∧
    (∃ v, (fetchViolations st net).result = .ok v) ∧
    ((∀ data, net (fetchStudentsRequest st) = .ok data → data.hasField "students" = false) →
      (fetchStudents st net).result = .ok (.arr [])) ∧
    ((∀ data, net (fetchStudentsWithFaceStatusRequest st) = .ok data →
        data.hasField "students" = false) →
      (fetchStudentsWithFaceStatus st net).result = .ok (.arr [])) ∧
    (∀ e, net (fetchViolationsRequest st) = .error e →
      (fetchViolations st net).result
        = .ok (.obj [("success", .bool false), ("violations", .obj [("data", .arr [])])])) := by
  have total : ∀ out : HttpOutcome, ∃ v, studentsOrEmpty out = .ok v := by
    intro out
    unfold studentsOrEmpty
    split
    · exact ⟨_, rfl⟩
    · exact ⟨_, rfl⟩
  have empty : ∀ out : HttpOutcome,
      (∀ data, out = .ok data → data.hasField "students" = false) →
      studentsOrEmpty out = .ok (.arr []) := by
    intro out h
    rcases out with e | data
    · rfl
    · have hf := h data rfl
      cases data with
      | obj fields =>
        simp only [JsVal.hasField] at hf
        have hl : fields.lookup "students" = none := by
          cases hlk : fields.lookup "students" with
          | none => rfl
          | some v => simp [hlk] at hf
        simp [studentsOrEmpty, Except.bind, JsVal.getProp, hl, JsVal.or, JsVal.truthy]
      | undefined => simp [studentsOrEmpty, Except.bind, JsVal.getProp]
      | null => simp [studentsOrEmpty, Except.bind, JsVal.getProp]
      | bool b => simp [studentsOrEmpty, Except.bind, JsVal.getProp, JsVal.or, JsVal.truthy]
      | num q => simp [studentsOrEmpty, Except.bind, JsVal.getProp, JsVal.or, JsVal.truthy]
      | str t => simp [studentsOrEmpty, Except.bind, JsVal.getProp, JsVal.or, JsVal.truthy]
      | date ms => simp [studentsOrEmpty, Except.bind, JsVal.getProp, JsVal.or, JsVal.truthy]
      | arr xs => simp [studentsOrEmpty, Except.bind, JsVal.getProp, JsVal.or, JsVal.truthy]
  refine ⟨total _, total _, ?_, empty _, empty _, ?_⟩
  · simp only [fetchViolations]
    split
    · exact ⟨_, rfl⟩
    · exact ⟨_, rfl⟩
  · intro e he
    simp [fetchViolations, he, emptyViolations]

/-- Instance of C10: a transport failure yields the empty list. -/
theorem list_fetchers_never_throw_witness :
    (fetchStudents (fun _ => none) (fun _ => .error (newError "Network Error"))).result
      = .ok (.arr []) :=
  (list_fetchers_never_throw (fun _ => none) (fun _ => .error (newError "Network Error"))).2.2.2.1
    (by intro data h; cases h)

/-! ## Theorems on the error objects, the form, registration and the student lists -/

/-- A value built by `a || b` is truthy as soon as the second operand is. -/
theorem or_truthy (a b : JsVal) (hb : b.truthy = true) : (a.or b).truthy = true := by
  unfold JsVal.or
  split_ifs with h
  · exact h
  · exact hb

/-- A non-empty string is truthy. -/
theorem str_truthy (t : String) (h : t ≠ "") : (JsVal.str t).truthy = true := by
  simp [JsVal.truthy, h]

/-- C11 (amended): `login`, `encodeFace`, `registerFace`, `recognizeFace` and `logout`
never throw.  When the request succeeds they return the body unchanged; when it
fails they return an object whose `error` is `true` and whose `message` is
truthy: the first truthy of the server fields the function reads, then (where
the function reads it) the transport message, then its fixed text. -/
theorem error_object_functions (st : Storage) (net : Net) (email password : String)
    (image payload encoding threshold : JsVal) :
    (∀ data, net (loginRequest st email password) = .ok data →
        (login st net email password).result = .ok data) ∧
    (∀ data, net (encodeFaceRequest image) = .ok data →
        (encodeFace net image).result = .ok data) ∧
    (∀ data, net (registerFaceRequest st payload) = .ok data →
        (registerFace st net payload).result = .ok data) ∧
    (∀ data, net (recognizeFaceRequest st encoding threshold) = .ok data →
        (recognizeFace st net encoding threshold).result = .ok data) ∧
    (∀ data, net (logoutRequest st) = .ok data → (logout st net).result = .ok data) ∧
    (∀ e, net (loginRequest st email password) = .error e →
        ∃ m, (login st net email password).result
            = .ok (.obj [("error", .bool true), ("message", m)]) ∧ m.truthy = true ∧
          m = (e.responseData.optProp "message").or
                ((e.responseData.optProp "error").or (.str "Login failed"))) ∧
    (∀ e, net (encodeFaceRequest image) = .error e →
        ∃ m, (encodeFace net image).result
            = .ok (.obj [("error", .bool true), ("message", m)]) ∧ m.truthy = true ∧
          m = (e.responseData.optProp "error").or
                ((JsVal.str e.message).or (.str "Encoder call failed"))) ∧
    (∀ e, net (registerFaceRequest st payload) = .error e →
        ∃ m, (registerFace st net payload).result
            = .ok (.obj [("error", .bool true), ("message", m)]) ∧ m.truthy = true ∧
          m = (e.responseData.optProp "error").or
                ((e.responseData.optProp "message").or
                  ((JsVal.str e.message).or (.str "Face registration failed")))) ∧
    (∀ e, net (recognizeFaceRequest st encoding threshold) = .error e →
        ∃ m, (recognizeFace st net encoding threshold).result
            = .ok (.obj [("error", .bool true), ("message", m)]) ∧ m.truthy = true ∧
          m = (e.responseData.optProp "error").or
                ((e.responseData.optProp "message").or
                  ((JsVal.str e.message).or (.str "Face recognition failed")))) ∧
    (∀ e, net (logoutRequest st) = .error e →
        ∃ m, (logout st net).result
            = .ok (.obj [("error", .bool true), ("message", m)]) ∧ m.truthy = true ∧
          m = (e.responseData.optProp "message").or (.str "Logout failed")) := by
  have fixed : ∀ t : String, t ≠ "" → (JsVal.str t).truthy = true := str_truthy
  refine ⟨?_, ?_, ?_, ?_, ?_, ?_, ?_, ?_, ?_, ?_⟩
  · intro data h; simp [login, h]
  · intro data h; simp [encodeFace, h]
  · intro data h; simp [registerFace, h]
  · intro data h; simp [recognizeFace, h]
  · intro data h; simp [logout, h]
  · intro e h
    refine ⟨_, by simp only [login, h], ?_, rfl⟩
    exact or_truthy _ _ (or_truthy _ _ (fixed _ (by decide)))
  · intro e h
    refine ⟨_, by simp only [encodeFace, h], ?_, rfl⟩
    exact or_truthy _ _ (or_truthy _ _ (fixed _ (by decide)))
  · intro e h
    refine ⟨_, by simp only [registerFace, h], ?_, rfl⟩
    exact or_truthy _ _ (or_truthy _ _ (or_truthy _ _ (fixed _ (by decide))))
  · intro e h
    refine ⟨_, by simp only [recognizeFace, h], ?_, rfl⟩
    exact or_truthy _ _ (or_truthy _ _ (or_truthy _ _ (fixed _ (by decide))))
  · intro e h
    refine ⟨_, by simp only [logout, h], ?_, rfl⟩
    exact or_truthy _ _ (fixed _ (by decide))

/-- Instance of C11: a transport failure of the encoder call. -/
theorem error_object_functions_witness :
    (encodeFace (fun _ => .error (newError "Network Error")) (.str "AAAA")).result
      = .ok (.obj [("error", .bool true), ("message", .str "Network Error")]) := by
  obtain ⟨m, hres, _, hm⟩ :=
    (error_object_functions (fun _ => none) (fun _ => .error (newError "Network Error"))
      "" "" (.str "AAAA") .null .null .null).2.2.2.2.2.2.1 (newError "Network Error") rfl
  rw [hres, hm]
  simp [JsError.responseData, newError, JsVal.optProp, JsVal.or, JsVal.truthy]

/-- C12: `checkDuplicateViolation` never throws and always returns a boolean;
it returns `true` exactly when the request succeeds and the `is_duplicate`
field of the body is the boolean `true`. -/
theorem checkDuplicateViolation_boolean (net : Net) (violationData : JsVal) :
    (∃ b, (checkDuplicateViolation net violationData).result = .ok (.bool b)) ∧
    ((checkDuplicateViolation net violationData).result = .ok (.bool true) ↔
      ∃ body, net (checkDuplicateViolationRequest violationData) = .ok body ∧
        body.optProp "is_duplicate" = .bool true) := by
  unfold checkDuplicateViolation
  rcases hn : net (checkDuplicateViolationRequest violationData) with e | body
  · simp [hn, Except.bind]
  · cases body with
    | obj fields =>
      have hg : (JsVal.obj fields).getProp "is_duplicate"
          = .ok ((JsVal.obj fields).optProp "is_duplicate") := rfl
      simp only [hn, Except.bind, hg]
      cases hv : (JsVal.obj fields).optProp "is_duplicate" <;> simp [hv]
    | undefined => simp [hn, Except.bind, JsVal.getProp, JsVal.optProp]
    | null => simp [hn, Except.bind, JsVal.getProp, JsVal.optProp]
    | bool b => simp [hn, Except.bind, JsVal.getProp, JsVal.optProp]
    | num q => simp [hn, Except.bind, JsVal.getProp, JsVal.optProp]
    | str t => simp [hn, Except.bind, JsVal.getProp, JsVal.optProp]
    | date ms => simp [hn, Except.bind, JsVal.getProp, JsVal.optProp]
    | arr xs => simp [hn, Except.bind, JsVal.getProp, JsVal.optProp]

/-- Counterexample to C11 as worded: `logout` reads only the server `message`,
so a failure whose body supplies `error` alone yields the fixed text, not the
server-supplied error. -/
theorem logout_ignores_server_error :
    (logout (fun _ => none) (fun _ => .error unauthenticatedError)).result
      = .ok (.obj [("error", .bool true), ("message", .str "Logout failed")]) ∧
    unauthenticatedError.responseData.optProp "error" = .str "Unauthenticated." := by
  constructor
  · simp [logout, unauthenticatedError, JsError.responseData, JsVal.optProp, List.lookup,
      JsVal.or, JsVal.truthy]
  · rfl

/-- Instance of C12: a body with `is_duplicate: true`. -/
theorem checkDuplicateViolation_boolean_witness :
    (checkDuplicateViolation (fun _ => .ok (.obj [("is_duplicate", .bool true)])) .null).result
      = .ok (.bool true) :=
  (checkDuplicateViolation_boolean (fun _ => .ok (.obj [("is_duplicate", .bool true)]))
    .null).2.2 ⟨_, rfl, by simp [JsVal.optProp, List.lookup]⟩

/-- What `handleNewViolation` does restore: every field other than the type
and the date, the step, and the two cleared references. -/
theorem handleNewViolation_resets_rest (s : ScreenState) (now mount : Int) :
    (handleNewViolation s now).violation
      = { initialViolation mount with violation_type := "tardiness", violation_date := now } ∧
    (handleNewViolation s now).step = "recognize" ∧
    (handleNewViolation s now).recognizedStudent = none ∧
    (handleNewViolation s now).submittedViolation = none := by
  simp [handleNewViolation, initialViolation]

/-- C14, the defect: after `handleNewViolation`, pressed on the screen of a
submitted violation, the field `violation_type` is `tardiness`, not the
`late_arrival` the form is mounted with, and `tardiness` is not an entry of
`violationTypes`. -/
theorem handleNewViolation_type_differs :
    submittedState.step = "submitted" ∧
    (handleNewViolation submittedState 0).violation.violation_type = "tardiness" ∧
    (initialState 0).violation.violation_type = "late_arrival" ∧
    (handleNewViolation submittedState 0).violation.violation_type
      ≠ (initialState 0).violation.violation_type ∧
    violationTypes.find? (fun type => decide (type.value = "tardiness")) = none := by
  refine ⟨rfl, rfl, rfl, ?_, ?_⟩
  · simp [handleNewViolation, initialState, initialViolation]
  · rfl

/-- For a type listed in `violationTypes`, the effect installs its fixed
description and severity and leaves the other fields alone. -/
theorem typeChangeEffect_listed (v : Violation) (t : ViolationType) (ht : t ∈ violationTypes)
    (hv : v.violation_type = t.value) :
    typeChangeEffect v = { v with description := t.description, severity := t.severity } := by
  simp only [violationTypes, List.mem_cons, List.mem_singleton, List.not_mem_nil,
    or_false] at ht
  rcases ht with rfl | rfl | rfl | rfl | rfl <;>
    simp [typeChangeEffect, violationTypes, hv, List.find?]

/-- C15, the defect: the form left by `handleNewViolation` has the type
`tardiness`, for which the effect changes nothing: the description stays empty,
which is the description of no entry of `violationTypes`. -/
theorem typeChangeEffect_after_reset :
    submittedState.step = "submitted" ∧
    typeChangeEffect (handleNewViolation submittedState 0).violation
      = (handleNewViolation submittedState 0).violation ∧
    (typeChangeEffect (handleNewViolation submittedState 0).violation).description = "" ∧
    (∀ t ∈ violationTypes, t.description ≠ "") := by
  refine ⟨rfl, ?_, ?_, ?_⟩
  · simp [typeChangeEffect, handleNewViolation, violationTypes, List.find?]
  · simp [typeChangeEffect, handleNewViolation, violationTypes, List.find?]
  · decide

/-- C16, the defect: for a violation dated 2024-11-04 16:30 UTC on a device eight
hours ahead of UTC, `handleSubmit` asks the duplicate check about 2024-11-04
and then submits the violation under the date 2024-11-05. -/
theorem handleSubmit_dates_differ :
    requestDates (handleSubmit lateEveningState (fun _ => none) acceptingNet (-480) false).2
      = [.str "2024-11-04", .str "2024-11-05"] := by
  rfl

/-- Whenever the encoder request fails, `takePhoto` discards the captured
photo, shows the `Face Detection` alert and does not change the step. -/
theorem takePhoto_encoder_failure (stringify : JsVal → Option String) (toStr : JsVal → String)
    (parse : String → Option ℚ) (s : RegisterFaceScreen.State)
    (p : RegisterFaceScreen.CapturedPhoto) (b64 : String) (net : Net) (e : JsError)
    (hb : p.base64 = some b64) (hb0 : b64 ≠ "")
    (hnet : net (encodeFaceRequest (.str b64)) = .error e) :
    (RegisterFaceScreen.takePhoto stringify toStr parse s true (.ok (some p)) net).1
      = { s with capturedPhoto := none, capturedBase64 := none, encodingPhoto := false } ∧
    (RegisterFaceScreen.takePhoto stringify toStr parse s true (.ok (some p)) net).2
      = [.takePicture, .request (encodeFaceRequest (.str b64)),
         .alert "Face Detection" (.str "No face detected. Please try again.")] := by
  simp [RegisterFaceScreen.takePhoto, hb, hb0, encodeFace, hnet, JsVal.optProp, List.lookup,
    JsVal.isUndefined, JsVal.truthy]

/-- C17, the defect: when the encoder request fails, `takePhoto` does not go on
to the review step: the captured photo is discarded, `currentStep` stays 2 and
the `Face Detection` alert is shown. -/
theorem takePhoto_encoder_failure_resets :
    (RegisterFaceScreen.takePhoto (fun _ => none) (fun _ => "") (fun _ => none) capturingState
      true (.ok (some { uri := "file:///face.jpg", base64 := some "AAAA" }))
      (fun _ => .error (newError "Network Error"))).1.capturedPhoto = none ∧
    (RegisterFaceScreen.takePhoto (fun _ => none) (fun _ => "") (fun _ => none) capturingState
      true (.ok (some { uri := "file:///face.jpg", base64 := some "AAAA" }))
      (fun _ => .error (newError "Network Error"))).1.currentStep = 2 ∧
    (RegisterFaceScreen.takePhoto (fun _ => none) (fun _ => "") (fun _ => none) capturingState
      true (.ok (some { uri := "file:///face.jpg", base64 := some "AAAA" }))
      (fun _ => .error (newError "Network Error"))).2.any (Effect.isAlert "Face Detection")
      = true := by
  refine ⟨?_, ?_, ?_⟩ <;>
  simp [RegisterFaceScreen.takePhoto, encodeFace, JsVal.optProp, List.lookup,
    JsVal.isUndefined, JsVal.truthy, capturingState, RegisterFaceScreen.initialState,
    Effect.isAlert]

/-- The request of `registerFace` goes to `BASE_URL/register-face`, token or not. -/
theorem registerFaceRequest_url (st : Storage) (payload : JsVal) :
    (registerFaceRequest st payload).url = BASE_URL ++ "/register-face" ∧
    (registerFaceRequest st payload).data = payload := by
  simp only [registerFaceRequest, clientRequest, requestInterceptor]
  split
  · split <;> exact ⟨rfl, rfl⟩
  · exact ⟨rfl, rfl⟩

/-- C18: when `registerFace` returns a failure (`error` truthy or `success`
false), `handleSubmit` shows `Face Already Registered` exactly when the
lower-cased message (`message`, else `errors`, else the fixed text, through
`toMessage`) contains `already registered`, `duplicate` or `exists`; otherwise
it shows `Registration Failed` with that message, and the selected student, the
captured photo and the step are unchanged. -/
theorem handleSubmit_registration_failure (stringify : JsVal → Option String)
    (toStr : JsVal → String) (parse : String → Option ℚ) (toLowerCase : String → String)
    (s : RegisterFaceScreen.State) (st : Storage) (net : Net)
    (b64 : String) (enc result : JsVal)
    (hstudent : s.selectedStudent.truthy = true)
    (hb : s.capturedBase64 = some b64) (hb0 : b64 ≠ "")
    (henc : (encodeFace net (.str b64)).result = .ok enc)
    (hencoding : (enc.optProp "encoding").truthy = true)
    (hreg : (registerFace st net
        (RegisterFaceScreen.registrationPayload toStr parse s.selectedStudent b64 enc)).result
        = .ok result)
    (hfail : (result.optProp "error").truthy = true ∨ result.optProp "success" = .bool false) :
    ((RegisterFaceScreen.handleSubmit stringify toStr parse toLowerCase s st net).2.any
        (Effect.isAlert "Face Already Registered") = true ↔
      (includes (toLowerCase (RegisterFaceScreen.toMessage stringify toStr
          ((result.optProp "message").or
            ((result.optProp "errors").or (.str "Server rejected the request")))
          "Unknown error")) "already registered" = true ∨
       includes (toLowerCase (RegisterFaceScreen.toMessage stringify toStr
          ((result.optProp "message").or
            ((result.optProp "errors").or (.str "Server rejected the request")))
          "Unknown error")) "duplicate" = true ∨
       includes (toLowerCase (RegisterFaceScreen.toMessage stringify toStr
          ((result.optProp "message").or
            ((result.optProp "errors").or (.str "Server rejected the request")))
          "Unknown error")) "exists" = true)) ∧
    ((RegisterFaceScreen.handleSubmit stringify toStr parse toLowerCase s st net).2.any
        (Effect.isAlert "Face Already Registered") = false →
      Effect.alert "Registration Failed" (.str (RegisterFaceScreen.toMessage stringify toStr
          ((result.optProp "message").or
            ((result.optProp "errors").or (.str "Server rejected the request")))
          "Unknown error"))
        ∈ (RegisterFaceScreen.handleSubmit stringify toStr parse toLowerCase s st net).2) ∧
    (RegisterFaceScreen.handleSubmit stringify toStr parse toLowerCase s st net).1.selectedStudent
      = s.selectedStudent ∧
    (RegisterFaceScreen.handleSubmit stringify toStr parse toLowerCase s st net).1.capturedPhoto
      = s.capturedPhoto ∧
    (RegisterFaceScreen.handleSubmit stringify toStr parse toLowerCase s st net).1.capturedBase64
      = s.capturedBase64 ∧
    (RegisterFaceScreen.handleSubmit stringify toStr parse toLowerCase s st net).1.currentStep
      = s.currentStep := by
  have hcond : ((result.optProp "error").truthy || (result.optProp "success").isFalse) = true := by
    rcases hfail with h | h
    · simp [h]
    · simp [h, JsVal.isFalse]
  simp only [RegisterFaceScreen.handleSubmit, hstudent, hb, hb0, henc, hencoding, hreg, hcond,
    Bool.not_true, if_true, if_false, Bool.false_eq_true]
  by_cases hdup : RegisterFaceScreen.alreadyRegistered toLowerCase
      (RegisterFaceScreen.toMessage stringify toStr
          ((result.optProp "message").or
            ((result.optProp "errors").or (.str "Server rejected the request")))
          "Unknown error") = true
  · have hdup2 := hdup
    simp only [RegisterFaceScreen.alreadyRegistered, Bool.or_eq_true, or_assoc] at hdup2
    simp only [hdup, if_true]
    simp [Effect.isAlert, encodeFace, registerFace, or_assoc, hdup2]
  · have hdup2 := hdup
    simp only [RegisterFaceScreen.alreadyRegistered, Bool.or_eq_true, or_assoc] at hdup2
    simp only [hdup, if_false]
    simp [Effect.isAlert, encodeFace, registerFace, or_assoc, hdup2]

/-- Instance of C18: the backend rejects the registration with `Invalid image`. -/
theorem handleSubmit_registration_failure_witness :
    Effect.alert "Registration Failed" (.str "Invalid image")
      ∈ (RegisterFaceScreen.handleSubmit (fun _ => none) (fun _ => "") (fun _ => none)
          asciiLower reviewState (fun _ => none) rejectingNet).2 :=
  (handleSubmit_registration_failure (fun _ => none) (fun _ => "") (fun _ => none)
    asciiLower reviewState (fun _ => none) rejectingNet "AAAA" goodEncoding
    (.obj [("success", .bool false), ("message", .str "Invalid image")])
    rfl rfl (by decide) rfl rfl rfl (Or.inr rfl)).2.1 (by decide)

/-- The alert built by the catch block is not a request. -/
theorem submitCatch_not_request (stringify : JsVal → Option String) (toStr : JsVal → String)
    (toLowerCase : String → String) (err : JsError) (r : RequestConfig) :
    Effect.request r ≠ RegisterFaceScreen.submitCatch stringify toStr toLowerCase err := by
  simp only [RegisterFaceScreen.submitCatch]
  split_ifs <;> simp

/-- C19 (amended): `handleSubmit` of the registration screen sends a request
to `/register-face` only when a student is selected, a captured image is
present and the fresh `encodeFace` call returned an encoding; the body of that
request then carries the id of the selected student as `student_id`, the
captured image as `face_image_data` and, as `confidence_score`, the
double-precision product `confidence * 100` of the encoder confidence (null
when that product is not finite). -/
theorem handleSubmit_registers_only_when_ready (stringify : JsVal → Option String)
    (toStr : JsVal → String) (parse : String → Option ℚ) (toLowerCase : String → String)
    (s : RegisterFaceScreen.State) (st : Storage) (net : Net) (r : RequestConfig)
    (hsent : Effect.request r
      ∈ (RegisterFaceScreen.handleSubmit stringify toStr parse toLowerCase s st net).2)
    (hurl : r.url = BASE_URL ++ "/register-face") :
    s.selectedStudent.truthy = true ∧
    ∃ b64 enc, s.capturedBase64 = some b64 ∧ b64 ≠ "" ∧
      (encodeFace net (.str b64)).result = .ok enc ∧
      (enc.optProp "encoding").truthy = true ∧
      r.data.optProp "student_id" = s.selectedStudent.optProp "id" ∧
      r.data.optProp "face_image_data" = .str b64 ∧
      (∀ c, enc.optProp "confidence" = .num c →
        r.data.optProp "confidence_score"
          = numberOrNull ((Double.ofRat c).mul (Double.ofNat 100)).toRat) := by
  have hflask : ∀ v, (encodeFaceRequest v).url ≠ BASE_URL ++ "/register-face" := by
    intro v
    simp only [encodeFaceRequest, flaskRequest]
    decide
  unfold RegisterFaceScreen.handleSubmit at hsent
  by_cases hstudent : s.selectedStudent.truthy = true
  · refine ⟨hstudent, ?_⟩
    simp only [hstudent, Bool.not_true, Bool.false_eq_true, if_false] at hsent
    rcases hb : s.capturedBase64 with _ | b64
    · simp [hb] at hsent
    · simp only [hb] at hsent
      by_cases hb0 : b64 = ""
      · simp [hb0] at hsent
      · simp only [hb0, if_false] at hsent
        have hsentEnc : (encodeFace net (.str b64)).sent = [encodeFaceRequest (.str b64)] := rfl
        rcases henc : (encodeFace net (.str b64)).result with e | enc
        · simp only [henc, hsentEnc] at hsent
          simp at hsent
          rcases hsent with h | h
          · exact absurd (h ▸ hurl) (hflask _)
          · exact absurd h (submitCatch_not_request _ _ _ _ _)
        · simp only [henc, hsentEnc] at hsent
          by_cases hencoding : (enc.optProp "encoding").truthy = true
          · simp only [hencoding, Bool.not_true, Bool.false_eq_true, if_false] at hsent
            have hreq : ∀ x, (registerFace st net x).sent = [registerFaceRequest st x] :=
              fun _ => rfl
            have key : r = registerFaceRequest st
                (RegisterFaceScreen.registrationPayload toStr parse s.selectedStudent b64 enc) := by
              simp only [hreq] at hsent
              split at hsent
              · simp at hsent
                rcases hsent with h | h | h
                · exact absurd (h ▸ hurl) (hflask _)
                · exact h
                · exact absurd h (submitCatch_not_request _ _ _ _ _)
              · split_ifs at hsent <;> simp at hsent <;>
                  rcases hsent with h | h <;>
                  first
                    | exact absurd (h ▸ hurl) (hflask _)
                    | exact h
            refine ⟨b64, enc, rfl, hb0, henc, hencoding, ?_, ?_, ?_⟩
            · rw [key, (registerFaceRequest_url st _).2]
              simp [RegisterFaceScreen.registrationPayload, JsVal.optProp, List.lookup]
            · rw [key, (registerFaceRequest_url st _).2]
              simp [RegisterFaceScreen.registrationPayload, JsVal.optProp, List.lookup]
            · intro c hc
              rw [key, (registerFaceRequest_url st _).2]
              simp only [RegisterFaceScreen.registrationPayload, hc]
              simp [JsVal.optProp, List.lookup, JsVal.toNumber, timesHundred]
          · simp only [hencoding, Bool.not_false, if_true] at hsent
            simp at hsent
            exact absurd (hsent ▸ hurl) (hflask _)
  · simp [hstudent] at hsent

/-- Instance of C19: on the review step with a good encoding the registration
request is sent for the selected student, with the captured image and the
double product of the confidence. -/
theorem handleSubmit_registers_only_when_ready_witness :
    reviewState.selectedStudent.truthy = true ∧
    ∃ b64 enc, reviewState.capturedBase64 = some b64 ∧ b64 ≠ "" ∧
      (encodeFace rejectingNet (.str b64)).result = .ok enc ∧
      (enc.optProp "encoding").truthy = true ∧
      (registerFaceRequest (fun _ => none)
        (RegisterFaceScreen.registrationPayload (fun _ => "") (fun _ => none)
          reviewState.selectedStudent "AAAA" goodEncoding)).data.optProp "student_id"
        = reviewState.selectedStudent.optProp "id" ∧
      (registerFaceRequest (fun _ => none)
        (RegisterFaceScreen.registrationPayload (fun _ => "") (fun _ => none)
          reviewState.selectedStudent "AAAA" goodEncoding)).data.optProp "face_image_data"
        = .str b64 ∧
      (∀ c, enc.optProp "confidence" = .num c →
        (registerFaceRequest (fun _ => none)
          (RegisterFaceScreen.registrationPayload (fun _ => "") (fun _ => none)
            reviewState.selectedStudent "AAAA" goodEncoding)).data.optProp "confidence_score"
          = numberOrNull ((Double.ofRat c).mul (Double.ofNat 100)).toRat) :=
  handleSubmit_registers_only_when_ready (fun _ => none) (fun _ => "") (fun _ => none)
    asciiLower reviewState (fun _ => none) rejectingNet
    (registerFaceRequest (fun _ => none)
      (RegisterFaceScreen.registrationPayload (fun _ => "") (fun _ => none)
        reviewState.selectedStudent "AAAA" goodEncoding))
    (List.Mem.tail _ (List.Mem.head _)) rfl

/-- The double nearest to 0.57. -/
theorem confidence_057_double :
    Double.ofRat (57 / 100) = .fin 5134103575202365 (-53) := by
  have hnum : (57 / 100 : ℚ).num = 57 := by norm_num
  have hden : (57 / 100 : ℚ).den = 100 := by norm_num
  simp only [Double.ofRat, hnum, hden]
  decide

/-- The double product `0.57 * 100` is 56.99999999999999. -/
theorem timesHundred_057 :
    timesHundred (some (57 / 100)) = some (8022036836253695 / 140737488355328) := by
  have h : (Double.fin 5134103575202365 (-53)).mul (Double.ofNat 100)
      = .fin 8022036836253695 (-47) := by decide
  simp only [timesHundred, confidence_057_double, h, Double.toRat]
  norm_num

/-- Counterexample to C19 as worded: for the encoder confidence 0.57 the
registration request carries `confidence_score` 56.99999999999999 (the double
product), which is not 100 times 0.57. -/
theorem registration_confidence_score_is_rounded :
    ordinaryEncoding.optProp "confidence" = .num (57 / 100) ∧
    ∃ r, Effect.request r
        ∈ (RegisterFaceScreen.handleSubmit (fun _ => none) (fun _ => "") (fun _ => none)
            asciiLower reviewState (fun _ => none) registeringNet).2 ∧
      r.url = BASE_URL ++ "/register-face" ∧
      r.data.optProp "confidence_score" = .num (8022036836253695 / 140737488355328) ∧
      r.data.optProp "confidence_score" ≠ .num (57 / 100 * 100) := by
  refine ⟨rfl, registerFaceRequest (fun _ => none)
      (RegisterFaceScreen.registrationPayload (fun _ => "") (fun _ => none)
        reviewState.selectedStudent "AAAA" ordinaryEncoding), ?_, rfl, ?_, ?_⟩
  · exact List.Mem.tail _ (List.Mem.head _)
  · have h : (RegisterFaceScreen.registrationPayload (fun _ => "") (fun _ => none)
        reviewState.selectedStudent "AAAA" ordinaryEncoding).optProp "confidence_score"
        = numberOrNull (timesHundred (some (57 / 100))) := rfl
    exact h.trans (by rw [timesHundred_057]; rfl)
  · have h : (RegisterFaceScreen.registrationPayload (fun _ => "") (fun _ => none)
        reviewState.selectedStudent "AAAA" ordinaryEncoding).optProp "confidence_score"
        = numberOrNull (timesHundred (some (57 / 100))) := rfl
    have h2 : (registerFaceRequest (fun _ => none)
        (RegisterFaceScreen.registrationPayload (fun _ => "") (fun _ => none)
          reviewState.selectedStudent "AAAA" ordinaryEncoding)).data.optProp "confidence_score"
        = .num (8022036836253695 / 140737488355328) :=
      h.trans (by rw [timesHundred_057]; rfl)
    rw [h2]
    intro hcontra
    injection hcontra with hq
    norm_num at hq

/-- The filter keeps exactly the elements whose flag passes `keep`, in order,
provided no element is undefined or null. -/
theorem filterByFlag_eq (keep : Bool → Bool) (list : List JsVal)
    (h : ∀ x ∈ list, x ≠ .undefined ∧ x ≠ .null) :
    StudentFacesScreen.filterByFlag keep list
      = .ok (list.filter (fun x => keep (x.optProp "has_face_registered").truthy)) := by
  induction list with
  | nil => rfl
  | cons x rest ih =>
    have hx := h x (List.mem_cons_self _ _)
    have hrest := ih (fun y hy => h y (List.mem_cons_of_mem _ hy))
    have hget : x.getProp "has_face_registered" = .ok (x.optProp "has_face_registered") := by
      cases x with
      | undefined => exact absurd rfl hx.1
      | null => exact absurd rfl hx.2
      | _ => rfl
    simp only [StudentFacesScreen.filterByFlag, hget, hrest, List.filter_cons]

/-- C20: `loadStudentData` splits the fetched students into two lists that
partition them: a student is registered exactly when `has_face_registered` is
truthy, both lists keep the fetched order, together they are a rearrangement of
the fetched list, and their lengths add up to its length. -/
theorem loadStudentData_partition (s : StudentFacesScreen.State) (st : Storage) (net : Net)
    (list : List JsVal)
    (hfetch : (fetchStudentsWithFaceStatus st net).result = .ok (.arr list))
    (hobj : ∀ x ∈ list, x ≠ .undefined ∧ x ≠ .null) :
    (StudentFacesScreen.loadStudentData s st net).1.students = .arr list ∧
    (StudentFacesScreen.loadStudentData s st net).1.registeredStudents
      = list.filter (fun x => (x.optProp "has_face_registered").truthy) ∧
    (StudentFacesScreen.loadStudentData s st net).1.unregisteredStudents
      = list.filter (fun x => !(x.optProp "has_face_registered").truthy) ∧
    (∀ x ∈ list,
      (x ∈ (StudentFacesScreen.loadStudentData s st net).1.registeredStudents ↔
        (x.optProp "has_face_registered").truthy = true) ∧
      (x ∈ (StudentFacesScreen.loadStudentData s st net).1.unregisteredStudents ↔
        (x.optProp "has_face_registered").truthy = false)) ∧
    List.Sublist (StudentFacesScreen.loadStudentData s st net).1.registeredStudents list ∧
    List.Sublist (StudentFacesScreen.loadStudentData s st net).1.unregisteredStudents list ∧
    List.Perm ((StudentFacesScreen.loadStudentData s st net).1.registeredStudents ++
      (StudentFacesScreen.loadStudentData s st net).1.unregisteredStudents) list ∧
    (StudentFacesScreen.loadStudentData s st net).1.registeredStudents.length +
      (StudentFacesScreen.loadStudentData s st net).1.unregisteredStudents.length
      = list.length := by
  have hreg := filterByFlag_eq (fun flag => flag) list hobj
  have hunreg := filterByFlag_eq (fun flag => !flag) list hobj
  have hstate : (StudentFacesScreen.loadStudentData s st net).1
      = { s with students := .arr list,
                 registeredStudents :=
                   list.filter (fun x => (x.optProp "has_face_registered").truthy),
                 unregisteredStudents :=
                   list.filter (fun x => !(x.optProp "has_face_registered").truthy),
                 isLoading := false } := by
    simp only [StudentFacesScreen.loadStudentData, hfetch, hreg, hunreg]
  rw [hstate]
  have hperm := List.filter_append_perm
    (fun x : JsVal => (x.optProp "has_face_registered").truthy) list
  refine ⟨rfl, rfl, rfl, ?_, List.filter_sublist _, List.filter_sublist _, hperm, ?_⟩
  · intro x hx
    simp [List.mem_filter, hx]
  · simpa using hperm.length_eq

/-- Instance of C20: two fetched students, one in each list. -/
theorem loadStudentData_partition_witness :
    (StudentFacesScreen.loadStudentData StudentFacesScreen.initialState (fun _ => none)
        twoStudentsNet).1.registeredStudents.length +
      (StudentFacesScreen.loadStudentData StudentFacesScreen.initialState (fun _ => none)
        twoStudentsNet).1.unregisteredStudents.length = 2 :=
  (loadStudentData_partition StudentFacesScreen.initialState (fun _ => none) twoStudentsNet
    [.obj [("id", .num 1), ("has_face_registered", .bool true)],
     .obj [("id", .num 2), ("has_face_registered", .bool false)]]
    rfl
    (by
      intro x hx
      simp only [List.mem_cons, List.mem_singleton, List.not_mem_nil, or_false] at hx
      rcases hx with rfl | rfl <;> simp)).2.2.2.2.2.2.2

/-! ## Theorems on the guide, the id fetchers, the routes and the flow invariant -/

/-- In the 1000 by 1000 frame the circle that the distance check computes is
the one inscribed in `checkedCircleBox`: centre (500, 600) and radius 350,
without rounding. -/
theorem computed_circle_is_checked_box :
    (doubleCircleCentre samplePhoto).1.toRat
      = some ((checkedCircleBox samplePhoto).left + (checkedCircleBox samplePhoto).width / 2) ∧
    (doubleCircleCentre samplePhoto).2.toRat
      = some ((checkedCircleBox samplePhoto).top + (checkedCircleBox samplePhoto).height / 2) ∧
    (doubleCircleRadius samplePhoto).toRat = some ((checkedCircleBox samplePhoto).width / 2) := by
  have hc : doubleCircleCentre samplePhoto = (.fin 125 2, .fin 75 3) := by decide
  have hr : doubleCircleRadius samplePhoto = .fin 175 1 := by decide
  rw [hc, hr]
  simp only [Double.toRat, checkedCircleBox, circleLeft, circleTop, circleDiameter, samplePhoto]
  norm_num

/-- The box of the checked circle and the layout box of `styles.faceGuide` in a
frame of the size of the photo agree in left edge, top edge and width; their
heights agree only when 70% of the frame width is 200. -/
theorem guide_box_comparison (p : Photo) :
    (checkedCircleBox p).left = (faceGuide.layout p.width p.height).left ∧
    (checkedCircleBox p).top = (faceGuide.layout p.width p.height).top ∧
    (checkedCircleBox p).width = (faceGuide.layout p.width p.height).width ∧
    ((checkedCircleBox p).height = (faceGuide.layout p.width p.height).height ↔
      p.width * 0.70 = 200) := by
  refine ⟨?_, ?_, ?_, ?_⟩
  · simp only [checkedCircleBox, circleLeft, GuideStyle.layout, faceGuide]
    norm_num
    ring
  · simp only [checkedCircleBox, circleTop, GuideStyle.layout, faceGuide]
    norm_num
    ring
  · simp only [checkedCircleBox, circleDiameter, GuideStyle.layout, faceGuide]
    norm_num
    ring
  · simp only [checkedCircleBox, circleDiameter, GuideStyle.layout, faceGuide]

/-- C21, the defect: in a frame of 1000 by 1000 the checked circle is 700 high
while the displayed guide is 200 high, and the point (500, 600), the centre of
the checked circle, passes the distance check although it lies below the guide. -/
theorem checked_circle_is_not_the_guide :
    (checkedCircleBox samplePhoto).height = 700 ∧
    (faceGuide.layout samplePhoto.width samplePhoto.height).height = 200 ∧
    insideCircle samplePhoto (500, 600, 500, 600) = true ∧
    (faceGuide.layout samplePhoto.width samplePhoto.height).contains 500 600 = false := by
  refine ⟨?_, rfl, ?_, ?_⟩
  · simp only [checkedCircleBox, circleDiameter, samplePhoto]; norm_num
  · decide
  · simp only [Box.contains, GuideStyle.layout, faceGuide, samplePhoto]; norm_num

/-- C22: for an id that is falsy or the string `undefined`, `fetchStudentDetails`,
`fetchStudentViolations` and `fetchFaceRegistrations` send no request and
return an object with `success` false and a non-empty message (for
`fetchStudentDetails` the message `Invalid or missing student ID`); for a falsy
id `fetchViolationById` and `fetchViolationDetails` send no request and return
an object with `success` false. -/
theorem id_fetchers_reject_missing_id (toStr : JsVal → String) (st : Storage) (net : Net)
    (id : JsVal) (hid : id.truthy = false ∨ id = .str "undefined") :
    ((fetchStudentDetails toStr st net id).sent = [] ∧
      ∃ v, (fetchStudentDetails toStr st net id).result = .ok v ∧
        v.optProp "success" = .bool false ∧
        v.optProp "message" = .str "Invalid or missing student ID") ∧
    ((fetchStudentViolations toStr st net id).sent = [] ∧
      ∃ v m, (fetchStudentViolations toStr st net id).result = .ok v ∧
        v.optProp "success" = .bool false ∧ v.optProp "message" = .str m ∧ m ≠ "") ∧
    ((fetchFaceRegistrations toStr st net id).sent = [] ∧
      ∃ v m, (fetchFaceRegistrations toStr st net id).result = .ok v ∧
        v.optProp "success" = .bool false ∧ v.optProp "message" = .str m ∧ m ≠ "") ∧
    (id.truthy = false →
      ((fetchViolationById toStr st net id).sent = [] ∧
        ∃ v, (fetchViolationById toStr st net id).result = .ok v ∧
          v.optProp "success" = .bool false) ∧
      ((fetchViolationDetails toStr st net id).sent = [] ∧
        ∃ v, (fetchViolationDetails toStr st net id).result = .ok v ∧
          v.optProp "success" = .bool false)) := by
  have hinv : invalidStudentId id = true := by
    rcases hid with h | h
    · simp [invalidStudentId, h]
    · subst h
      simp [invalidStudentId, JsVal.isString]
  have hfixed : ∀ m : String, (JsVal.undefined.or (JsVal.str m)) = JsVal.str m := by
    intro m
    simp [JsVal.or, JsVal.truthy]
  have hdetails : fetchStudentDetails toStr st net id =
      { sent := [],
        result := .ok (.obj [("success", .bool false),
          ("message", .str "Invalid or missing student ID"), ("status", .undefined)]) } := by
    simp [fetchStudentDetails, guardedGet, hinv, newError, JsError.responseData,
      JsError.responseStatus, JsVal.optProp, JsVal.or, JsVal.truthy]
  have hviolations : fetchStudentViolations toStr st net id =
      { sent := [],
        result := .ok (.obj [("success", .bool false),
          ("message", .str "Failed to fetch student violations")]) } := by
    simp [fetchStudentViolations, guardedGet, hinv, newError, JsError.responseData,
      JsVal.optProp, hfixed]
  have hfaces : fetchFaceRegistrations toStr st net id =
      { sent := [],
        result := .ok (.obj [("success", .bool false),
          ("message", .str "Failed to fetch face registrations")]) } := by
    simp [fetchFaceRegistrations, guardedGet, hinv, newError, JsError.responseData,
      JsVal.optProp, hfixed]
  refine ⟨?_, ?_, ?_, ?_⟩
  · rw [hdetails]
    exact ⟨rfl, _, rfl, rfl, rfl⟩
  · rw [hviolations]
    exact ⟨rfl, _, _, rfl, rfl, rfl, by decide⟩
  · rw [hfaces]
    exact ⟨rfl, _, _, rfl, rfl, rfl, by decide⟩
  · intro hf
    have hbyId : fetchViolationById toStr st net id =
        { sent := [],
          result := .ok (.obj [("success", .bool false),
            ("message", .str "Failed to fetch violation by ID")]) } := by
      simp [fetchViolationById, guardedGet, hf]
    have hvdetails : fetchViolationDetails toStr st net id =
        { sent := [],
          result := .ok (.obj [("success", .bool false),
            ("message", .str "Failed to fetch violation details")]) } := by
      simp [fetchViolationDetails, guardedGet, hf]
    rw [hbyId, hvdetails]
    exact ⟨⟨rfl, _, rfl, rfl⟩, ⟨rfl, _, rfl, rfl⟩⟩

/-- Instance of C22: the id `undefined` taken from a missing route parameter. -/
theorem id_fetchers_reject_missing_id_witness :
    (fetchStudentDetails (fun _ => "undefined") (fun _ => none) (fun _ => .ok .null)
      (.str "undefined")).sent = [] :=
  (id_fetchers_reject_missing_id (fun _ => "undefined") (fun _ => none) (fun _ => .ok .null)
    (.str "undefined") (Or.inr rfl)).1.1

/-- Every navigate call other than the two to `SettingsScreen` names a registered screen. -/
theorem other_routes_registered :
    ∀ c ∈ navigateCalls, c.route ≠ "SettingsScreen" → c.registered = true := by
  decide

/-- C23, the defect: the Settings items of the Home and Dashboard sidebars
navigate to `SettingsScreen`, which is not registered in the stack navigator. -/
theorem settings_route_not_registered :
    (navigateCalls.filter (fun c => !c.registered)).map (fun c => (c.file, c.line, c.route))
      = [("HomeScreen.js", 92, "SettingsScreen"), ("DashboardScreen.js", 81, "SettingsScreen")] ∧
    registeredRoutes.contains "SettingsScreen" = false := by
  constructor <;> decide

/-- The invariant looks only at `step`, `recognizedStudent`, `violation.student_id`
and `submittedViolation`. -/
theorem FlowInvariant.of_same_core (s t : ScreenState) (h : FlowInvariant s)
    (hstep : t.step = s.step) (hstudent : t.recognizedStudent = s.recognizedStudent)
    (hid : t.violation.student_id = s.violation.student_id)
    (hsub : t.submittedViolation = s.submittedViolation) : FlowInvariant t := by
  unfold FlowInvariant at h ⊢
  rw [hstep, hstudent, hid, hsub]
  exact h

/-- The recognition step keeps the invariant when it starts in step `recognize`. -/
theorem applyRecognition_invariant (s : ScreenState) (recognition : Option Recognition)
    (hstep : s.step = "recognize") : FlowInvariant (applyRecognition s recognition) := by
  have hne1 : ¬ ("recognize" = "submit") := by decide
  have hne2 : ¬ ("recognize" = "submitted") := by decide
  have hne3 : ¬ ("submit" = "submitted") := by decide
  unfold applyRecognition
  split
  · rename_i r
    split_ifs with hrec hband
    · refine ⟨Or.inr (Or.inl rfl), ?_, ?_⟩
      · intro h
        exact absurd h hne3
      · intro _
        exact ⟨r.student, rfl, rfl⟩
    · refine ⟨Or.inl hstep, ?_, ?_⟩
      · intro h
        exact absurd (hstep.symm.trans h) hne2
      · rintro (h | h)
        · exact absurd (hstep.symm.trans h) hne1
        · exact absurd (hstep.symm.trans h) hne2
    · refine ⟨Or.inl hstep, ?_, ?_⟩
      · intro h
        exact absurd (hstep.symm.trans h) hne2
      · rintro (h | h)
        · exact absurd (hstep.symm.trans h) hne1
        · exact absurd (hstep.symm.trans h) hne2
  · refine ⟨Or.inl hstep, ?_, ?_⟩
    · intro h
      exact absurd (hstep.symm.trans h) hne2
    · rintro (h | h)
      · exact absurd (hstep.symm.trans h) hne1
      · exact absurd (hstep.symm.trans h) hne2

/-- A run of the interval callback started in step `recognize` keeps the invariant. -/
theorem liveTick_invariant (s : ScreenState) (cameraReady : Bool)
    (photo : Except JsError (Option Photo)) (enc : Option EncResponse)
    (recognition : Option Recognition) (hinv : FlowInvariant s)
    (hstep : s.step = "recognize") :
    FlowInvariant (liveTick s cameraReady photo enc recognition).1 := by
  unfold liveTick
  split_ifs with hc
  · rcases photo with e | _ | p
    · exact hinv.of_same_core _ _ rfl rfl rfl rfl
    · exact hinv.of_same_core _ _ rfl rfl rfl rfl
    · rcases hb : p.base64 with _ | b64
      · simp only [hb]
        exact hinv.of_same_core _ _ rfl rfl rfl rfl
      · simp only [hb]
        split_ifs with hb0
        · exact hinv.of_same_core _ _ rfl rfl rfl rfl
        · rcases he : enc.bind (fun r => r.encoding) with _ | encoding
          · simp only [he]
            exact hinv.of_same_core _ _ rfl rfl rfl rfl
          · rcases hbb : enc.bind (fun r => r.bbox) with _ | bbox
            · simp only [he, hbb]
              exact hinv.of_same_core _ _ rfl rfl rfl rfl
            · simp only [he, hbb]
              split_ifs with hin
              · exact (applyRecognition_invariant
                  { s with isProcessing := true, detectionStatus := "detecting",
                           faceData :=
                             { landmarks := (enc.map (fun r => r.landmarks)).getD .undefined,
                               confidence := (enc.map (fun r => r.confidence)).getD .undefined,
                               bbox := some bbox,
                               insideCircle := some (insideCircle p bbox) } }
                  recognition hstep).of_same_core _ _ rfl rfl rfl rfl
              · exact hinv.of_same_core _ _ rfl rfl rfl rfl
  · exact hinv.of_same_core _ _ rfl rfl rfl rfl

/-- The submission started in step `submit` keeps the invariant. -/
theorem submitViolationData_invariant (s : ScreenState) (st : Storage) (net : Net) (tz : Int)
    (hinv : FlowInvariant s) (hstep : s.step = "submit") :
    FlowInvariant (submitViolationData s st net tz).1 := by
  obtain ⟨student, hstudent, hid⟩ := hinv.2.2 (Or.inl hstep)
  unfold submitViolationData
  simp only []
  split
  · exact hinv.of_same_core _ _ rfl rfl rfl rfl
  · split
    · exact hinv.of_same_core _ _ rfl rfl rfl rfl
    · split_ifs
      · exact ⟨Or.inr (Or.inr rfl), fun _ => rfl, fun _ => ⟨student, hstudent, hid⟩⟩
      · exact hinv.of_same_core _ _ rfl rfl rfl rfl
      · exact hinv.of_same_core _ _ rfl rfl rfl rfl

/-- The form handler `handleSubmit` started in step `submit` keeps the invariant. -/
theorem handleSubmit_invariant (s : ScreenState) (st : Storage) (net : Net) (tz : Int)
    (proceed : Bool) (hinv : FlowInvariant s) (hstep : s.step = "submit") :
    FlowInvariant (handleSubmit s st net tz proceed).1 := by
  have hsub := submitViolationData_invariant s st net tz hinv hstep
  have hcases : (handleSubmit s st net tz proceed).1 = s ∨
      (handleSubmit s st net tz proceed).1 = (submitViolationData s st net tz).1 := by
    cases ht : s.violation.student_id.truthy
    · left
      simp only [handleSubmit, ht, Bool.not_false, if_true]
    · by_cases h2 : s.violation.description = ""
      · left
        simp only [handleSubmit, ht, h2, Bool.not_true, Bool.false_eq_true, if_true, if_false]
      · simp only [handleSubmit, ht, h2, Bool.not_true, Bool.false_eq_true, if_false]
        split
        · exact Or.inr rfl
        · split_ifs <;> first | exact Or.inr rfl | exact Or.inl rfl
  rcases hcases with h | h
  · rw [h]
    exact hinv
  · rw [h]
    exact hsub

/-- A form edit keeps the invariant. -/
theorem applyFormEdit_invariant (s : ScreenState) (e : FormEdit) (hinv : FlowInvariant s) :
    FlowInvariant (applyFormEdit s e) := by
  cases e with
  | violationType itemValue =>
    simp only [applyFormEdit, pickViolationType]
    split_ifs
    · exact hinv
    · refine hinv.of_same_core _ _ rfl rfl ?_ rfl
      simp only [typeChangeEffect]
      split <;> rfl
  | dateChange selectedDate =>
    cases selectedDate <;> exact hinv.of_same_core _ _ rfl rfl rfl rfl
  | _ => exact hinv.of_same_core _ _ rfl rfl rfl rfl

/-- Every atomic step keeps the invariant. -/
theorem Transition.preserves (s t : ScreenState) (hinv : FlowInvariant s)
    (h : Transition s t) : FlowInvariant t := by
  have hne1 : ¬ ("recognize" = "submit") := by decide
  have hne2 : ¬ ("recognize" = "submitted") := by decide
  have hne3 : ¬ ("submit" = "submitted") := by decide
  cases h with
  | typeEffect =>
    refine hinv.of_same_core _ _ rfl rfl ?_ rfl
    simp only [typeChangeEffect]
    split <;> rfl
  | tick granted cameraReady photo enc recognition hactive =>
    have hstep : s.step = "recognize" := by
      simp only [intervalActive, Bool.and_eq_true, decide_eq_true_eq] at hactive
      exact hactive.2
    exact liveTick_invariant s cameraReady photo enc recognition hinv hstep
  | submit st net tz proceed hstep => exact handleSubmit_invariant s st net tz proceed hinv hstep
  | cancel hstep =>
    refine ⟨Or.inl rfl, ?_, ?_⟩
    · intro h
      exact absurd h hne2
    · rintro (h | h)
      · exact absurd h hne1
      · exact absurd h hne2
  | formEdit e hstep => exact applyFormEdit_invariant s e hinv
  | edit hstep hsome =>
    obtain ⟨student, hstudent, hid⟩ := hinv.2.2 (Or.inr hstep)
    refine ⟨Or.inr (Or.inl rfl), ?_, ?_⟩
    · intro h
      exact absurd h hne3
    · intro _
      exact ⟨student, hstudent, hid⟩
  | newViolation now hstep hsome =>
    refine ⟨Or.inl rfl, ?_, ?_⟩
    · intro h
      exact absurd h hne2
    · rintro (h | h)
      · exact absurd h hne1
      · exact absurd h hne2

/-- C24: with each handler of the recognise-and-submit screen taken as one
atomic step, every reachable state has `step` among `recognize`, `submit` and
`submitted`; `submitted` comes with a non-null `submittedViolation`; and in
`submit` and `submitted` the recognised student is non-null and
`violation.student_id` is its id. -/
theorem reachable_flow_invariant (s : ScreenState) (h : Reachable s) :
    (s.step = "recognize" ∨ s.step = "submit" ∨ s.step = "submitted") ∧
    (s.step = "submitted" → s.submittedViolation.isSome = true) ∧
    ((s.step = "submit" ∨ s.step = "submitted") →
      ∃ student, s.recognizedStudent = some student ∧
        s.violation.student_id = student.id) := by
  have key : FlowInvariant s := by
    induction h with
    | mount now =>
      refine ⟨Or.inl rfl, ?_, ?_⟩
      · intro h
        exact absurd h (show ¬ ("recognize" = "submitted") by decide)
      · rintro (h | h)
        · exact absurd h (show ¬ ("recognize" = "submit") by decide)
        · exact absurd h (show ¬ ("recognize" = "submitted") by decide)
    | step s t _ htrans ih => exact Transition.preserves s t ih htrans
  exact key

/-- Instance of C24: the state reached from the mounted screen by one run of
the interval callback that recognises a centred face with confidence 0.65. -/
theorem reachable_flow_invariant_witness :
    ∃ student,
      (liveTick (initialState 0) true (.ok (some samplePhoto)) (some centredFace)
        (some sampleRecognition)).1.recognizedStudent = some student ∧
      (liveTick (initialState 0) true (.ok (some samplePhoto)) (some centredFace)
        (some sampleRecognition)).1.violation.student_id = student.id :=
  (reachable_flow_invariant _
    (Reachable.step _ _ (Reachable.mount 0)
      (Transition.tick (initialState 0) true true (.ok (some samplePhoto)) (some centredFace)
        (some sampleRecognition) rfl))).2.2
    (Or.inl (by
      rw [liveTick_inside (initialState 0) (some sampleRecognition) samplePhoto centredFace
        "AAAA" [1, 2, 3] (400, 500, 600, 700) rfl rfl (by decide) rfl rfl centredFace_inside]
      simp [initialState, applyRecognition, sampleRecognition]
      norm_num))

/-- The confirmation view is reachable: the mount effect, a recognition in the
confidence band, then an accepted submission. -/
theorem submitted_reachable :
    ∃ s, Reachable s ∧ s.step = "submitted" ∧ s.submittedViolation.isSome = true := by
  have h1 : Reachable { initialState 0 with
      violation := typeChangeEffect (initialState 0).violation } :=
    Reachable.step _ _ (Reachable.mount 0) (Transition.typeEffect _)
  have h2 := Reachable.step _ _ h1
    (Transition.tick _ true true (.ok (some samplePhoto)) (some centredFace)
      (some sampleRecognition) rfl)
  have hlive := liveTick_inside { initialState 0 with
      violation := typeChangeEffect (initialState 0).violation } (some sampleRecognition)
    samplePhoto centredFace "AAAA" [1, 2, 3] (400, 500, 600, 700) rfl rfl (by decide) rfl rfl
    centredFace_inside
  have hstep : (liveTick { initialState 0 with
      violation := typeChangeEffect (initialState 0).violation } true
      (.ok (some samplePhoto)) (some centredFace) (some sampleRecognition)).1.step
      = "submit" := by
    rw [hlive]
    simp [initialState, applyRecognition, sampleRecognition]
    norm_num
  have h3 := Reachable.step _ _ h2
    (Transition.submit _ (fun _ => none) acceptingNet 0 false hstep)
  refine ⟨_, h3, ?_, ?_⟩ <;>
  · rw [hlive]
    simp [handleSubmit, submitViolationData, submitViolation, checkDuplicateViolation,
      acceptingNet, initialState, initialViolation, applyRecognition, sampleRecognition,
      typeChangeEffect,
      violationTypes, List.find?, JsVal.getProp, JsVal.optProp, JsVal.truthy, Except.bind]
    norm_num
    simp [List.lookup]

end GuardApp
